import Mathlib

/-!
# LLGL: texture image provisioning (`sources/Renderer/GLCommon/Texture/GLTexImage.cpp`)

A shallow embedding of the texture image entry points of the OpenGL backend and
theorems about the sequence of OpenGL calls each entry point issues.

Conventions of the embedding:

* unsigned 32-bit arithmetic is `Nat` arithmetic reduced modulo `2^32` (`u32`);
  conversions to `int` / `GLsizei` are `toInt32`, conversions to `std::size_t`
  are `toSizeT`;
* the OpenGL driver is a log of calls (`GLState.calls`, oldest call first);
* a C++ exception is the `Outcome.threw` result, which keeps the state reached
  when the exception was thrown; the exceptions are the `std::runtime_error` of
  `ErrIllegalUseOfDepthFormat` and the `std::length_error` of the `std::vector`
  constructor;
* a `float` is kept as its bit pattern, the code only stores and copies floats;
* a generated `std::vector` is the list of its elements, and its constructor
  throws when asked for more than `max_size()` elements; running out of memory
  while building a vector of an admissible size is outside the embedding.
-/

namespace LLGL

/-! ## Machine integers -/

/-- Result of an arithmetic expression of type `std::uint32_t`. -/
def u32 (n : Nat) : Nat := n % 2 ^ 32

/-- Conversion of an unsigned value to `int` or `GLsizei` (32 bits, two-complement). -/
def toInt32 (n : Nat) : Int :=
  if n % 2 ^ 32 < 2 ^ 31 then ((n % 2 ^ 32 : Nat) : Int) else ((n % 2 ^ 32 : Nat) : Int) - 2 ^ 32

/-- Conversion of an `int` to `std::uint32_t` (usual arithmetic conversions). -/
def intToU32 (i : Int) : Nat := (i % 2 ^ 32).toNat

/-- Conversion `static_cast<std::size_t>(i)` of an `int`, with a 64-bit `std::size_t`. -/
def toSizeT (i : Int) : Nat := (i % 2 ^ 64).toNat

/-! ## Data model -/

/-- Modelled from the spec: the three format classes of the format classifier
(`Compressed`, `DepthStencil`, `Color`), which the spec states to be mutually
exclusive and total over the format enumeration. -/
inductive FormatClass
  | Compressed
  | DepthStencil
  | Color
  deriving DecidableEq, Repr

/-- Modelled from the spec: the `TextureFormat` enumeration is declared in a
header that is not part of the sources. A format is its enumerator number
together with the class the format classifier assigns to it. -/
structure TextureFormat where
  id : Nat
  formatClass : FormatClass
  deriving DecidableEq, Repr

/-- Modelled from the spec: `IsCompressedFormat` is defined outside the sources;
it is the query "the format is classified Compressed". -/
def IsCompressedFormat (format : TextureFormat) : Bool :=
  decide (format.formatClass = FormatClass.Compressed)

/-- Modelled from the spec: `IsDepthStencilFormat` is defined outside the
sources; it is the query "the format is classified DepthStencil". -/
def IsDepthStencilFormat (format : TextureFormat) : Bool :=
  decide (format.formatClass = FormatClass.DepthStencil)

/-- Enumerator number of an `ImageFormat` (the enumeration is declared outside the sources). -/
abbrev ImageFormat := Nat

/-- Enumerator number of a `DataType` (the enumeration is declared outside the sources). -/
abbrev DataType := Nat

/-- The six enumerators of `AxisDirection` listed by `cubeFaces`. -/
inductive AxisDirection
  | XPos | XNeg | YPos | YNeg | ZPos | ZNeg
  deriving DecidableEq, Repr

/-- A `float`, kept as its IEEE-754 binary32 bit pattern. -/
structure Float32 where
  bits : Nat
  deriving DecidableEq, Repr

/-- The constant `1.0f`. -/
def Float32.one : Float32 := ⟨0x3F800000⟩

/-- The constant `0.0f`. -/
def Float32.zero : Float32 := ⟨0⟩

structure ColorRGBAf where
  r : Float32
  g : Float32
  b : Float32
  a : Float32
  deriving DecidableEq, Repr

/-- The fields of `ClearValue` read by this file (`color`, `depth`) and its `stencil`. -/
structure ClearValue where
  color : ColorRGBAf
  depth : Float32
  stencil : Nat
  deriving DecidableEq, Repr

structure ImageInitialization where
  enabled : Bool
  clearValue : ClearValue
  deriving DecidableEq, Repr

/-- The `texture1D` member of `TextureDescriptor`. -/
structure Texture1DDescriptor where
  width : Nat
  layers : Nat
  deriving DecidableEq, Repr

/-- The `texture2D` member of `TextureDescriptor`. -/
structure Texture2DDescriptor where
  width : Nat
  height : Nat
  layers : Nat
  deriving DecidableEq, Repr

/-- The `texture3D` member of `TextureDescriptor`. -/
structure Texture3DDescriptor where
  width : Nat
  height : Nat
  depth : Nat
  deriving DecidableEq, Repr

/-- The `textureCube` member of `TextureDescriptor`. -/
structure TextureCubeDescriptor where
  width : Nat
  height : Nat
  layers : Nat
  deriving DecidableEq, Repr

/-- The `texture2DMS` member of `TextureDescriptor`. -/
structure Texture2DMSDescriptor where
  width : Nat
  height : Nat
  layers : Nat
  samples : Nat
  fixedSamples : Bool
  deriving DecidableEq, Repr

/-- The fields of `TextureDescriptor` read by this file. Every geometry field is a
`std::uint32_t`. Each entry point reads the member of its own shape only. -/
structure TextureDescriptor where
  format : TextureFormat
  texture1D : Texture1DDescriptor
  texture2D : Texture2DDescriptor
  texture3D : Texture3DDescriptor
  textureCube : TextureCubeDescriptor
  texture2DMS : Texture2DMSDescriptor
  deriving DecidableEq, Repr

/-- The source image: `data` is the address held by the `const void*`,
`dataSize` a `std::size_t`. -/
structure ImageDescriptor where
  format : ImageFormat
  dataType : DataType
  data : Nat
  dataSize : Nat
  deriving DecidableEq, Repr

/-! ## The OpenGL side -/

/-- The OpenGL enumerants named in this file, and any other enumerant by value. -/
inductive GLenum
  | GL_TEXTURE_1D
  | GL_TEXTURE_2D
  | GL_TEXTURE_3D
  | GL_TEXTURE_1D_ARRAY
  | GL_TEXTURE_2D_ARRAY
  | GL_TEXTURE_CUBE_MAP_ARRAY
  | GL_TEXTURE_2D_MULTISAMPLE
  | GL_TEXTURE_2D_MULTISAMPLE_ARRAY
  | GL_RGBA
  | GL_UNSIGNED_BYTE
  | GL_FLOAT
  | GL_DEPTH_COMPONENT
  | value (code : Nat)
  deriving DecidableEq, Repr

/-- A `const void*` handed to OpenGL: an address (`nullptr` is address 0), or
`image.data()` of a vector generated by `GenImageDataRGBAf` / `GenImageDataRf`,
named by the elements of the vector (for an empty vector this is whatever pointer
the library returns for it, which may be null). -/
inductive DataPtr
  | addr (a : Nat)
  | rgbaf (image : List ColorRGBAf)
  | rf (image : List Float32)
  deriving DecidableEq, Repr

/-- The null pointer. -/
def DataPtr.nullptr : DataPtr := DataPtr.addr 0

/-- One call into OpenGL, with its arguments in the order of the C prototype. -/
inductive GLCall
  | glCompressedTexImage1D (target : GLenum) (level : Int) (internalformat : GLenum)
      (width : Int) (border : Int) (imageSize : Int) (data : DataPtr)
  | glTexImage1D (target : GLenum) (level : Int) (internalformat : GLenum)
      (width : Int) (border : Int) (format : GLenum) (type : GLenum) (data : DataPtr)
  | glCompressedTexImage2D (target : GLenum) (level : Int) (internalformat : GLenum)
      (width : Int) (height : Int) (border : Int) (imageSize : Int) (data : DataPtr)
  | glTexImage2D (target : GLenum) (level : Int) (internalformat : GLenum)
      (width : Int) (height : Int) (border : Int) (format : GLenum) (type : GLenum)
      (data : DataPtr)
  | glCompressedTexImage3D (target : GLenum) (level : Int) (internalformat : GLenum)
      (width : Int) (height : Int) (depth : Int) (border : Int) (imageSize : Int)
      (data : DataPtr)
  | glTexImage3D (target : GLenum) (level : Int) (internalformat : GLenum)
      (width : Int) (height : Int) (depth : Int) (border : Int) (format : GLenum)
      (type : GLenum) (data : DataPtr)
  | glTexImage2DMultisample (target : GLenum) (samples : Int) (internalformat : GLenum)
      (width : Int) (height : Int) (fixedsamplelocations : Bool)
  | glTexImage3DMultisample (target : GLenum) (samples : Int) (internalformat : GLenum)
      (width : Int) (height : Int) (depth : Int) (fixedsamplelocations : Bool)
  deriving DecidableEq, Repr

/-- Functions this file calls that are defined outside the sources (`GLTypes::Map`
for each argument type, `ImageFormatSize`, `DataTypeSize`); they are parameters
of the embedding. The two size functions return `std::uint32_t`. -/
structure Externals where
  MapTextureFormat : TextureFormat → GLenum
  MapImageFormat : ImageFormat → GLenum
  MapDataType : DataType → GLenum
  MapAxisDirection : AxisDirection → GLenum
  ImageFormatSize : ImageFormat → Nat
  DataTypeSize : DataType → Nat

/-- The state the file works on: the file-level variable `g_imageInitialization`
and the log of the calls made into OpenGL so far. -/
structure GLState where
  g_imageInitialization : ImageInitialization
  calls : List GLCall
  deriving DecidableEq, Repr

/-- The exceptions an entry point can end with: the `std::runtime_error` thrown by
`ErrIllegalUseOfDepthFormat`, with its text, and the `std::length_error` thrown by
the constructor of `std::vector`, whose text is the choice of the library. -/
inductive Exception
  | runtime_error (what : String)
  | length_error
  deriving DecidableEq, Repr

/-- How an entry point ends: by returning, or by throwing. Both keep the state reached. -/
inductive Outcome
  | returned (s : GLState)
  | threw (e : Exception) (s : GLState)
  deriving DecidableEq, Repr

/-- The state an invocation ends in. -/
def Outcome.state : Outcome → GLState
  | Outcome.returned s => s
  | Outcome.threw _ s => s

/-- Whether the invocation raised an error. -/
def Outcome.raised : Outcome → Bool
  | Outcome.returned _ => false
  | Outcome.threw _ _ => true

/-- The error an invocation raised, if any. -/
def Outcome.error : Outcome → Option Exception
  | Outcome.returned _ => none
  | Outcome.threw e _ => some e

/-- Append one call to the log. -/
def GLState.call (s : GLState) (c : GLCall) : GLState :=
  { s with calls := s.calls ++ [c] }

/-! ## The code -/

def GLTexImageInitialization (imageInitialization : ImageInitialization) (s : GLState) :
    GLState :=
  { s with g_imageInitialization := imageInitialization }

/-- The value of `std::vector<T>::max_size()` for elements of `elemSize` bytes, with
64-bit pointers: `PTRDIFF_MAX / sizeof(T)`. Every bound between `2^31` and
`2^64 - 2^31` gives the same outcomes below, since a count converted from an `int`
is below `2^31` or at least `2^64 - 2^31`. -/
def vectorMaxSize (elemSize : Nat) : Nat := (2 ^ 63 - 1) / elemSize

/-- The constructor `std::vector<T>(n, value)` for elements of `elemSize` bytes: it
throws `std::length_error` when `n` exceeds `max_size()`, and otherwise builds `n`
copies of `value`. -/
def stdVector {α : Type} (elemSize : Nat) (n : Nat) (value : α) : Except Exception (List α) :=
  if vectorMaxSize elemSize < n then Except.error Exception.length_error
  else Except.ok (List.replicate n value)

/-- A `ColorRGBAf` is four `float`s: 16 bytes. -/
def GenImageDataRGBAf (numPixels : Int) (color : ColorRGBAf) :
    Except Exception (List ColorRGBAf) :=
  stdVector 16 (toSizeT numPixels) color

/-- A `float` is 4 bytes. -/
def GenImageDataRf (numPixels : Int) (value : Float32) : Except Exception (List Float32) :=
  stdVector 4 (toSizeT numPixels) value

/-- Go on with the generated vector, or end with the exception its constructor
threw: the statement `auto image = ...;` followed by the use of `image`. -/
def withImage {α : Type} (r : Except Exception (List α)) (s : GLState)
    (k : List α → GLState) : Outcome :=
  match r with
  | Except.error e => Outcome.threw e s
  | Except.ok image => Outcome.returned (k image)

def ErrIllegalUseOfDepthFormat (s : GLState) : Outcome :=
  Outcome.threw (Exception.runtime_error "illegal use of depth-stencil format for texture") s

def GLTexImage1DBase (X : Externals) (target : GLenum) (internalFormat : TextureFormat)
    (width : Nat) (format type : GLenum) (data : DataPtr) (dataSize : Nat)
    (s : GLState) : GLState :=
  if IsCompressedFormat internalFormat then
    s.call (GLCall.glCompressedTexImage1D target 0 (X.MapTextureFormat internalFormat)
      (toInt32 width) 0 (toInt32 dataSize) data)
  else
    s.call (GLCall.glTexImage1D target 0 (X.MapTextureFormat internalFormat)
      (toInt32 width) 0 format type data)

def GLTexImage2DBase (X : Externals) (target : GLenum) (internalFormat : TextureFormat)
    (width height : Nat) (format type : GLenum) (data : DataPtr) (dataSize : Nat)
    (s : GLState) : GLState :=
  if IsCompressedFormat internalFormat then
    s.call (GLCall.glCompressedTexImage2D target 0 (X.MapTextureFormat internalFormat)
      (toInt32 width) (toInt32 height) 0 (toInt32 dataSize) data)
  else
    s.call (GLCall.glTexImage2D target 0 (X.MapTextureFormat internalFormat)
      (toInt32 width) (toInt32 height) 0 format type data)

def GLTexImage3DBase (X : Externals) (target : GLenum) (internalFormat : TextureFormat)
    (width height depth : Nat) (format type : GLenum) (data : DataPtr) (dataSize : Nat)
    (s : GLState) : GLState :=
  if IsCompressedFormat internalFormat then
    s.call (GLCall.glCompressedTexImage3D target 0 (X.MapTextureFormat internalFormat)
      (toInt32 width) (toInt32 height) (toInt32 depth) 0 (toInt32 dataSize) data)
  else
    s.call (GLCall.glTexImage3D target 0 (X.MapTextureFormat internalFormat)
      (toInt32 width) (toInt32 height) (toInt32 depth) 0 format type data)

def GLTexImage2DMultisampleBase (X : Externals) (target : GLenum) (samples : Nat)
    (internalFormat : TextureFormat) (width height : Nat) (fixedSamples : Bool)
    (s : GLState) : GLState :=
  s.call (GLCall.glTexImage2DMultisample target (toInt32 samples)
    (X.MapTextureFormat internalFormat) (toInt32 width) (toInt32 height)
    (if fixedSamples then true else false))

def GLTexImage3DMultisampleBase (X : Externals) (target : GLenum) (samples : Nat)
    (internalFormat : TextureFormat) (width height depth : Nat) (fixedSamples : Bool)
    (s : GLState) : GLState :=
  s.call (GLCall.glTexImage3DMultisample target (toInt32 samples)
    (X.MapTextureFormat internalFormat) (toInt32 width) (toInt32 height) (toInt32 depth)
    (if fixedSamples then true else false))

/-! The file-local (`static`) overloads that take the format and the geometry.
The default argument `compressedSize = 0` is written out at each call. -/
namespace Static

def GLTexImage1D (X : Externals) (internalFormat : TextureFormat) (width : Nat)
    (format type : GLenum) (data : DataPtr) (compressedSize : Nat) (s : GLState) : GLState :=
  GLTexImage1DBase X GLenum.GL_TEXTURE_1D internalFormat width format type data
    compressedSize s

def GLTexImage2D (X : Externals) (internalFormat : TextureFormat) (width height : Nat)
    (format type : GLenum) (data : DataPtr) (compressedSize : Nat) (s : GLState) : GLState :=
  GLTexImage2DBase X GLenum.GL_TEXTURE_2D internalFormat width height format type data
    compressedSize s

def GLTexImage3D (X : Externals) (internalFormat : TextureFormat)
    (width height depth : Nat) (format type : GLenum) (data : DataPtr)
    (compressedSize : Nat) (s : GLState) : GLState :=
  GLTexImage3DBase X GLenum.GL_TEXTURE_3D internalFormat width height depth format type
    data compressedSize s

def GLTexImageCube (X : Externals) (internalFormat : TextureFormat) (width height : Nat)
    (cubeFace : AxisDirection) (format type : GLenum) (data : DataPtr)
    (compressedSize : Nat) (s : GLState) : GLState :=
  GLTexImage2DBase X (X.MapAxisDirection cubeFace) internalFormat width height format type
    data compressedSize s

def GLTexImage1DArray (X : Externals) (internalFormat : TextureFormat)
    (width layers : Nat) (format type : GLenum) (data : DataPtr) (compressedSize : Nat)
    (s : GLState) : GLState :=
  GLTexImage2DBase X GLenum.GL_TEXTURE_1D_ARRAY internalFormat width layers format type
    data compressedSize s

def GLTexImage2DArray (X : Externals) (internalFormat : TextureFormat)
    (width height layers : Nat) (format type : GLenum) (data : DataPtr)
    (compressedSize : Nat) (s : GLState) : GLState :=
  GLTexImage3DBase X GLenum.GL_TEXTURE_2D_ARRAY internalFormat width height layers format
    type data compressedSize s

def GLTexImageCubeArray (X : Externals) (internalFormat : TextureFormat)
    (width height layers : Nat) (format type : GLenum) (data : DataPtr)
    (compressedSize : Nat) (s : GLState) : GLState :=
  GLTexImage3DBase X GLenum.GL_TEXTURE_CUBE_MAP_ARRAY internalFormat width height
    (u32 (layers * 6)) format type data compressedSize s

def GLTexImage2DMultisample (X : Externals) (samples : Nat)
    (internalFormat : TextureFormat) (width height : Nat) (fixedSamples : Bool)
    (s : GLState) : GLState :=
  GLTexImage2DMultisampleBase X GLenum.GL_TEXTURE_2D_MULTISAMPLE samples internalFormat
    width height fixedSamples s

def GLTexImage2DMultisampleArray (X : Externals) (samples : Nat)
    (internalFormat : TextureFormat) (width height depth : Nat) (fixedSamples : Bool)
    (s : GLState) : GLState :=
  GLTexImage3DMultisampleBase X GLenum.GL_TEXTURE_2D_MULTISAMPLE_ARRAY samples
    internalFormat width height depth fixedSamples s

end Static

/-! The entry points. A null `imageDesc` is `none`. -/

def GLTexImage1D (X : Externals) (desc : TextureDescriptor)
    (imageDesc : Option ImageDescriptor) (s : GLState) : Outcome :=
  match imageDesc with
  | some imageDesc =>
    Outcome.returned (Static.GLTexImage1D X desc.format
      desc.texture1D.width
      (X.MapImageFormat imageDesc.format) (X.MapDataType imageDesc.dataType)
      (DataPtr.addr imageDesc.data) imageDesc.dataSize s)
  | none =>
    if IsDepthStencilFormat desc.format then
      ErrIllegalUseOfDepthFormat s
    else if IsCompressedFormat desc.format || !s.g_imageInitialization.enabled then
      Outcome.returned (Static.GLTexImage1D X desc.format
        desc.texture1D.width
        GLenum.GL_RGBA GLenum.GL_UNSIGNED_BYTE DataPtr.nullptr 0 s)
    else
      withImage (GenImageDataRGBAf (toInt32 desc.texture1D.width)
        s.g_imageInitialization.clearValue.color) s fun image =>
        Static.GLTexImage1D X desc.format
          desc.texture1D.width
          GLenum.GL_RGBA GLenum.GL_FLOAT (DataPtr.rgbaf image) 0 s

def GLTexImage2D (X : Externals) (desc : TextureDescriptor)
    (imageDesc : Option ImageDescriptor) (s : GLState) : Outcome :=
  match imageDesc with
  | some imageDesc =>
    Outcome.returned (Static.GLTexImage2D X desc.format
      desc.texture2D.width desc.texture2D.height
      (X.MapImageFormat imageDesc.format) (X.MapDataType imageDesc.dataType)
      (DataPtr.addr imageDesc.data) imageDesc.dataSize s)
  | none =>
    if IsDepthStencilFormat desc.format then
      if s.g_imageInitialization.enabled then
        withImage (GenImageDataRf
          (toInt32 (u32 (desc.texture2D.width * desc.texture2D.height)))
          s.g_imageInitialization.clearValue.depth) s fun image =>
          Static.GLTexImage2D X desc.format
            desc.texture2D.width desc.texture2D.height
            GLenum.GL_DEPTH_COMPONENT GLenum.GL_FLOAT (DataPtr.rf image) 0 s
      else
        Outcome.returned (Static.GLTexImage2D X desc.format
          desc.texture2D.width desc.texture2D.height
          GLenum.GL_DEPTH_COMPONENT GLenum.GL_FLOAT DataPtr.nullptr 0 s)
    else if IsCompressedFormat desc.format || !s.g_imageInitialization.enabled then
      Outcome.returned (Static.GLTexImage2D X desc.format
        desc.texture2D.width desc.texture2D.height
        GLenum.GL_RGBA GLenum.GL_UNSIGNED_BYTE DataPtr.nullptr 0 s)
    else
      withImage (GenImageDataRGBAf
        (toInt32 (u32 (desc.texture2D.width * desc.texture2D.height)))
        s.g_imageInitialization.clearValue.color) s fun image =>
        Static.GLTexImage2D X desc.format
          desc.texture2D.width desc.texture2D.height
          GLenum.GL_RGBA GLenum.GL_FLOAT (DataPtr.rgbaf image) 0 s

def GLTexImage3D (X : Externals) (desc : TextureDescriptor)
    (imageDesc : Option ImageDescriptor) (s : GLState) : Outcome :=
  match imageDesc with
  | some imageDesc =>
    Outcome.returned (Static.GLTexImage3D X desc.format
      desc.texture3D.width desc.texture3D.height desc.texture3D.depth
      (X.MapImageFormat imageDesc.format) (X.MapDataType imageDesc.dataType)
      (DataPtr.addr imageDesc.data) imageDesc.dataSize s)
  | none =>
    if IsDepthStencilFormat desc.format then
      ErrIllegalUseOfDepthFormat s
    else if IsCompressedFormat desc.format || !s.g_imageInitialization.enabled then
      Outcome.returned (Static.GLTexImage3D X desc.format
        desc.texture3D.width desc.texture3D.height desc.texture3D.depth
        GLenum.GL_RGBA GLenum.GL_UNSIGNED_BYTE DataPtr.nullptr 0 s)
    else
      withImage (GenImageDataRGBAf
        (toInt32 (u32 (u32 (desc.texture3D.width * desc.texture3D.height) * desc.texture3D.depth)))
        s.g_imageInitialization.clearValue.color) s fun image =>
        Static.GLTexImage3D X desc.format
          desc.texture3D.width desc.texture3D.height desc.texture3D.depth
          GLenum.GL_RGBA GLenum.GL_FLOAT (DataPtr.rgbaf image) 0 s

/-- The array `cubeFaces` of `GLTexImageCube`. -/
def cubeFaces : List AxisDirection :=
  [AxisDirection.XPos, AxisDirection.XNeg, AxisDirection.YPos, AxisDirection.YNeg,
    AxisDirection.ZPos, AxisDirection.ZNeg]

/-- The entry point `GLTexImageCube`. On the source-image path the loop carries
the pair of the pointer `imageFace` and the state. -/
def GLTexImageCube (X : Externals) (desc : TextureDescriptor)
    (imageDesc : Option ImageDescriptor) (s : GLState) : Outcome :=
  match imageDesc with
  | some imageDesc =>
    let imageFace := imageDesc.data
    let imageFaceStride :=
      u32 (u32 (u32 (desc.textureCube.width * desc.textureCube.height)
        * X.ImageFormatSize imageDesc.format) * X.DataTypeSize imageDesc.dataType)
    let imageFaceStride :=
      if IsCompressedFormat desc.format then u32 imageDesc.dataSize else imageFaceStride
    let dataFormatGL := X.MapImageFormat imageDesc.format
    let dataTypeGL := X.MapDataType imageDesc.dataType
    let loop := cubeFaces.foldl
      (fun (st : Nat × GLState) face =>
        (st.1 + imageFaceStride,
          Static.GLTexImageCube X desc.format
            desc.textureCube.width desc.textureCube.height face
            dataFormatGL dataTypeGL (DataPtr.addr st.1) imageDesc.dataSize st.2))
      (imageFace, s)
    Outcome.returned loop.2
  | none =>
    if IsDepthStencilFormat desc.format then
      ErrIllegalUseOfDepthFormat s
    else if IsCompressedFormat desc.format || !s.g_imageInitialization.enabled then
      Outcome.returned (cubeFaces.foldl
        (fun st face =>
          Static.GLTexImageCube X desc.format
            desc.textureCube.width desc.textureCube.height face
            GLenum.GL_RGBA GLenum.GL_UNSIGNED_BYTE DataPtr.nullptr 0 st)
        s)
    else
      withImage (GenImageDataRGBAf
        (toInt32 (u32 (desc.textureCube.width * desc.textureCube.height)))
        s.g_imageInitialization.clearValue.color) s fun image =>
        cubeFaces.foldl
          (fun st face =>
            Static.GLTexImageCube X desc.format
              desc.textureCube.width desc.textureCube.height face
              GLenum.GL_RGBA GLenum.GL_FLOAT (DataPtr.rgbaf image) 0 st)
          s

def GLTexImage1DArray (X : Externals) (desc : TextureDescriptor)
    (imageDesc : Option ImageDescriptor) (s : GLState) : Outcome :=
  match imageDesc with
  | some imageDesc =>
    Outcome.returned (Static.GLTexImage1DArray X desc.format
      desc.texture1D.width desc.texture1D.layers
      (X.MapImageFormat imageDesc.format) (X.MapDataType imageDesc.dataType)
      (DataPtr.addr imageDesc.data) imageDesc.dataSize s)
  | none =>
    if IsDepthStencilFormat desc.format then
      ErrIllegalUseOfDepthFormat s
    else if IsCompressedFormat desc.format || !s.g_imageInitialization.enabled then
      Outcome.returned (Static.GLTexImage1DArray X desc.format
        desc.texture1D.width desc.texture1D.layers
        GLenum.GL_RGBA GLenum.GL_UNSIGNED_BYTE DataPtr.nullptr 0 s)
    else
      withImage (GenImageDataRGBAf
        (toInt32 (u32 (desc.texture1D.width * intToU32 (toInt32 desc.texture1D.layers))))
        s.g_imageInitialization.clearValue.color) s fun image =>
        Static.GLTexImage1DArray X desc.format
          desc.texture1D.width desc.texture1D.layers
          GLenum.GL_RGBA GLenum.GL_FLOAT (DataPtr.rgbaf image) 0 s

def GLTexImage2DArray (X : Externals) (desc : TextureDescriptor)
    (imageDesc : Option ImageDescriptor) (s : GLState) : Outcome :=
  match imageDesc with
  | some imageDesc =>
    Outcome.returned (Static.GLTexImage2DArray X desc.format
      desc.texture2D.width desc.texture2D.height desc.texture2D.layers
      (X.MapImageFormat imageDesc.format) (X.MapDataType imageDesc.dataType)
      (DataPtr.addr imageDesc.data) imageDesc.dataSize s)
  | none =>
    if IsDepthStencilFormat desc.format then
      if s.g_imageInitialization.enabled then
        withImage (GenImageDataRf
          (toInt32 (u32 (u32 (desc.texture2D.width * desc.texture2D.height)
            * intToU32 (toInt32 desc.texture2D.layers))))
          s.g_imageInitialization.clearValue.depth) s fun image =>
          Static.GLTexImage2DArray X desc.format
            desc.texture2D.width desc.texture2D.height desc.texture2D.layers
            GLenum.GL_DEPTH_COMPONENT GLenum.GL_FLOAT (DataPtr.rf image) 0 s
      else
        Outcome.returned (Static.GLTexImage2DArray X desc.format
          desc.texture2D.width desc.texture2D.height desc.texture2D.layers
          GLenum.GL_DEPTH_COMPONENT GLenum.GL_FLOAT DataPtr.nullptr 0 s)
    else if IsCompressedFormat desc.format || !s.g_imageInitialization.enabled then
      Outcome.returned (Static.GLTexImage2DArray X desc.format
        desc.texture2D.width desc.texture2D.height desc.texture2D.layers
        GLenum.GL_RGBA GLenum.GL_UNSIGNED_BYTE DataPtr.nullptr 0 s)
    else
      withImage (GenImageDataRGBAf
        (toInt32 (u32 (u32 (desc.texture2D.width * desc.texture2D.height)
          * intToU32 (toInt32 desc.texture2D.layers))))
        s.g_imageInitialization.clearValue.color) s fun image =>
        Static.GLTexImage2DArray X desc.format
          desc.texture2D.width desc.texture2D.height desc.texture2D.layers
          GLenum.GL_RGBA GLenum.GL_FLOAT (DataPtr.rgbaf image) 0 s

def GLTexImageCubeArray (X : Externals) (desc : TextureDescriptor)
    (imageDesc : Option ImageDescriptor) (s : GLState) : Outcome :=
  match imageDesc with
  | some imageDesc =>
    Outcome.returned (Static.GLTexImageCubeArray X desc.format
      desc.textureCube.width desc.textureCube.height desc.textureCube.layers
      (X.MapImageFormat imageDesc.format) (X.MapDataType imageDesc.dataType)
      (DataPtr.addr imageDesc.data) imageDesc.dataSize s)
  | none =>
    if IsDepthStencilFormat desc.format then
      ErrIllegalUseOfDepthFormat s
    else if IsCompressedFormat desc.format || !s.g_imageInitialization.enabled then
      Outcome.returned (Static.GLTexImageCubeArray X desc.format
        desc.textureCube.width desc.textureCube.height desc.textureCube.layers
        GLenum.GL_RGBA GLenum.GL_UNSIGNED_BYTE DataPtr.nullptr 0 s)
    else
      withImage (GenImageDataRGBAf
        (toInt32 (u32 (u32 (desc.textureCube.width * desc.textureCube.height)
          * intToU32 (toInt32 (u32 (desc.textureCube.layers * 6))))))
        s.g_imageInitialization.clearValue.color) s fun image =>
        Static.GLTexImageCubeArray X desc.format
          desc.textureCube.width desc.textureCube.height desc.textureCube.layers
          GLenum.GL_RGBA GLenum.GL_FLOAT (DataPtr.rgbaf image) 0 s

def GLTexImage2DMS (X : Externals) (desc : TextureDescriptor) (s : GLState) : Outcome :=
  Outcome.returned (Static.GLTexImage2DMultisample X desc.texture2DMS.samples desc.format
    desc.texture2DMS.width desc.texture2DMS.height desc.texture2DMS.fixedSamples s)

def GLTexImage2DMSArray (X : Externals) (desc : TextureDescriptor) (s : GLState) :
    Outcome :=
  Outcome.returned (Static.GLTexImage2DMultisampleArray X desc.texture2DMS.samples
    desc.format desc.texture2DMS.width desc.texture2DMS.height desc.texture2DMS.layers
    desc.texture2DMS.fixedSamples s)

/-! ## Vocabulary of the statements -/

/-- The seven entry points that take an optional source image. -/
inductive EntryPoint
  | tex1D | tex2D | tex3D | texCube | tex1DArray | tex2DArray | texCubeArray
  deriving DecidableEq, Repr

/-- Call the entry point named by `e`. -/
def EntryPoint.invoke (X : Externals) : EntryPoint → TextureDescriptor →
    Option ImageDescriptor → GLState → Outcome
  | EntryPoint.tex1D => GLTexImage1D X
  | EntryPoint.tex2D => GLTexImage2D X
  | EntryPoint.tex3D => GLTexImage3D X
  | EntryPoint.texCube => GLTexImageCube X
  | EntryPoint.tex1DArray => GLTexImage1DArray X
  | EntryPoint.tex2DArray => GLTexImage2DArray X
  | EntryPoint.texCubeArray => GLTexImageCubeArray X

/-- The number of elements an entry point asks `GenImageDataRGBAf` or `GenImageDataRf`
for when it generates a fill buffer: the product the source writes, before its
reduction to 32 bits. -/
def EntryPoint.fillCount : EntryPoint → TextureDescriptor → Nat
  | EntryPoint.tex1D, desc => desc.texture1D.width
  | EntryPoint.tex2D, desc => desc.texture2D.width * desc.texture2D.height
  | EntryPoint.tex3D, desc =>
    desc.texture3D.width * desc.texture3D.height * desc.texture3D.depth
  | EntryPoint.texCube, desc => desc.textureCube.width * desc.textureCube.height
  | EntryPoint.tex1DArray, desc => desc.texture1D.width * desc.texture1D.layers
  | EntryPoint.tex2DArray, desc =>
    desc.texture2D.width * desc.texture2D.height * desc.texture2D.layers
  | EntryPoint.texCubeArray, desc =>
    desc.textureCube.width * desc.textureCube.height * (desc.textureCube.layers * 6)

/-- The text of the error thrown by `ErrIllegalUseOfDepthFormat`. -/
def illegalDepthText : String := "illegal use of depth-stencil format for texture"

/-- The calls an invocation made: what the log holds beyond the log it started from. -/
def callsMade (s : GLState) (o : Outcome) : List GLCall :=
  o.state.calls.drop s.calls.length

/-- The `data` argument of a call that has one. -/
def GLCall.data? : GLCall → Option DataPtr
  | GLCall.glCompressedTexImage1D _ _ _ _ _ _ d => some d
  | GLCall.glTexImage1D _ _ _ _ _ _ _ d => some d
  | GLCall.glCompressedTexImage2D _ _ _ _ _ _ _ d => some d
  | GLCall.glTexImage2D _ _ _ _ _ _ _ _ d => some d
  | GLCall.glCompressedTexImage3D _ _ _ _ _ _ _ _ d => some d
  | GLCall.glTexImage3D _ _ _ _ _ _ _ _ _ d => some d
  | GLCall.glTexImage2DMultisample _ _ _ _ _ _ => none
  | GLCall.glTexImage3DMultisample _ _ _ _ _ _ _ => none

/-- The `target` argument of a call. -/
def GLCall.target : GLCall → GLenum
  | GLCall.glCompressedTexImage1D t _ _ _ _ _ _ => t
  | GLCall.glTexImage1D t _ _ _ _ _ _ _ => t
  | GLCall.glCompressedTexImage2D t _ _ _ _ _ _ _ => t
  | GLCall.glTexImage2D t _ _ _ _ _ _ _ _ => t
  | GLCall.glCompressedTexImage3D t _ _ _ _ _ _ _ _ => t
  | GLCall.glTexImage3D t _ _ _ _ _ _ _ _ _ => t
  | GLCall.glTexImage2DMultisample t _ _ _ _ _ => t
  | GLCall.glTexImage3DMultisample t _ _ _ _ _ _ => t

/-- The `internalformat` argument of a call. -/
def GLCall.internalformat : GLCall → GLenum
  | GLCall.glCompressedTexImage1D _ _ f _ _ _ _ => f
  | GLCall.glTexImage1D _ _ f _ _ _ _ _ => f
  | GLCall.glCompressedTexImage2D _ _ f _ _ _ _ _ => f
  | GLCall.glTexImage2D _ _ f _ _ _ _ _ _ => f
  | GLCall.glCompressedTexImage3D _ _ f _ _ _ _ _ _ => f
  | GLCall.glTexImage3D _ _ f _ _ _ _ _ _ _ => f
  | GLCall.glTexImage2DMultisample _ _ f _ _ _ => f
  | GLCall.glTexImage3DMultisample _ _ f _ _ _ _ => f

/-- The `width` argument of a call. -/
def GLCall.width : GLCall → Int
  | GLCall.glCompressedTexImage1D _ _ _ w _ _ _ => w
  | GLCall.glTexImage1D _ _ _ w _ _ _ _ => w
  | GLCall.glCompressedTexImage2D _ _ _ w _ _ _ _ => w
  | GLCall.glTexImage2D _ _ _ w _ _ _ _ _ => w
  | GLCall.glCompressedTexImage3D _ _ _ w _ _ _ _ _ => w
  | GLCall.glTexImage3D _ _ _ w _ _ _ _ _ _ => w
  | GLCall.glTexImage2DMultisample _ _ _ w _ _ => w
  | GLCall.glTexImage3DMultisample _ _ _ w _ _ _ => w

/-- The `height` argument of a call that has one. -/
def GLCall.height? : GLCall → Option Int
  | GLCall.glCompressedTexImage1D _ _ _ _ _ _ _ => none
  | GLCall.glTexImage1D _ _ _ _ _ _ _ _ => none
  | GLCall.glCompressedTexImage2D _ _ _ _ h _ _ _ => some h
  | GLCall.glTexImage2D _ _ _ _ h _ _ _ _ => some h
  | GLCall.glCompressedTexImage3D _ _ _ _ h _ _ _ _ => some h
  | GLCall.glTexImage3D _ _ _ _ h _ _ _ _ _ => some h
  | GLCall.glTexImage2DMultisample _ _ _ _ h _ => some h
  | GLCall.glTexImage3DMultisample _ _ _ _ h _ _ => some h

/-- Whether a call is one of the two single-face primitives
(`glTexImage2D`, `glCompressedTexImage2D`). -/
def GLCall.isTexImage2D : GLCall → Bool
  | GLCall.glCompressedTexImage2D _ _ _ _ _ _ _ _ => true
  | GLCall.glTexImage2D _ _ _ _ _ _ _ _ _ => true
  | _ => false

/-- The `depth` argument of a call that has one. -/
def GLCall.depth? : GLCall → Option Int
  | GLCall.glCompressedTexImage3D _ _ _ _ _ d _ _ _ => some d
  | GLCall.glTexImage3D _ _ _ _ _ d _ _ _ _ => some d
  | GLCall.glTexImage3DMultisample _ _ _ _ _ d _ => some d
  | _ => none

/-- The `imageSize` argument (byte length of compressed data) of a call that has one. -/
def GLCall.imageSize? : GLCall → Option Int
  | GLCall.glCompressedTexImage1D _ _ _ _ _ n _ => some n
  | GLCall.glCompressedTexImage2D _ _ _ _ _ _ n _ => some n
  | GLCall.glCompressedTexImage3D _ _ _ _ _ _ _ n _ => some n
  | _ => none

/-- The pixel `format` and `type` arguments of a call that has them. -/
def GLCall.formatType? : GLCall → Option (GLenum × GLenum)
  | GLCall.glTexImage1D _ _ _ _ _ f t _ => some (f, t)
  | GLCall.glTexImage2D _ _ _ _ _ _ f t _ => some (f, t)
  | GLCall.glTexImage3D _ _ _ _ _ _ _ f t _ => some (f, t)
  | _ => none

/-- Whether a call is one of the compressed primitives (`glCompressedTexImage1D`,
`glCompressedTexImage2D`, `glCompressedTexImage3D`). -/
def GLCall.isCompressed : GLCall → Bool
  | GLCall.glCompressedTexImage1D _ _ _ _ _ _ _ => true
  | GLCall.glCompressedTexImage2D _ _ _ _ _ _ _ _ => true
  | GLCall.glCompressedTexImage3D _ _ _ _ _ _ _ _ _ => true
  | _ => false

/-- An instance of the outside functions, to evaluate the code on concrete inputs:
every enumerator maps to the enumerant of the same number (cube faces from
`0x8515` on), and the two size functions return 4 and 1. -/
def sampleExternals : Externals where
  MapTextureFormat := fun f => GLenum.value f.id
  MapImageFormat := fun f => GLenum.value f
  MapDataType := fun t => GLenum.value t
  MapAxisDirection := fun a =>
    match a with
    | AxisDirection.XPos => GLenum.value 0x8515
    | AxisDirection.XNeg => GLenum.value 0x8516
    | AxisDirection.YPos => GLenum.value 0x8517
    | AxisDirection.YNeg => GLenum.value 0x8518
    | AxisDirection.ZPos => GLenum.value 0x8519
    | AxisDirection.ZNeg => GLenum.value 0x851A
  ImageFormatSize := fun _ => 4
  DataTypeSize := fun _ => 1

/-- A depth-stencil format, for concrete inputs. -/
def sampleDepthFormat : TextureFormat := ⟨1, FormatClass.DepthStencil⟩

/-- A plain-color format, for concrete inputs. -/
def sampleColorFormat : TextureFormat := ⟨10, FormatClass.Color⟩

/-- A compressed format, for concrete inputs. -/
def sampleCompressedFormat : TextureFormat := ⟨40, FormatClass.Compressed⟩

/-- A descriptor with the given format and every shape 4 by 4 (by 4), 2 layers. -/
def sampleDesc (format : TextureFormat) : TextureDescriptor where
  format := format
  texture1D := ⟨4, 2⟩
  texture2D := ⟨4, 4, 2⟩
  texture3D := ⟨4, 4, 4⟩
  textureCube := ⟨4, 4, 2⟩
  texture2DMS := ⟨4, 4, 2, 4, true⟩

/-- A descriptor like `sampleDesc` whose 2D shape is 65537 by 65536: its pixel
count `2^32 + 65536` does not fit 32 bits and is 65536 modulo `2^32`. -/
def wideDesc (format : TextureFormat) : TextureDescriptor where
  format := format
  texture1D := ⟨4, 2⟩
  texture2D := ⟨65537, 65536, 2⟩
  texture3D := ⟨4, 4, 4⟩
  textureCube := ⟨4, 4, 2⟩
  texture2DMS := ⟨4, 4, 2, 4, true⟩

/-- A descriptor like `sampleDesc` whose 2D shape is 65536 by 32768, with 1 layer:
its pixel count is `2^31`, a negative number once read as a 32-bit `int`. -/
def overflowDesc (format : TextureFormat) : TextureDescriptor where
  format := format
  texture1D := ⟨4, 2⟩
  texture2D := ⟨65536, 32768, 1⟩
  texture3D := ⟨4, 4, 4⟩
  textureCube := ⟨4, 4, 2⟩
  texture2DMS := ⟨4, 4, 2, 4, true⟩

/-- A source image of 384 bytes at address 4096. -/
def sampleImage : ImageDescriptor := ⟨0, 0, 4096, 384⟩

/-- The red clear color `(1, 0, 0, 1)`. -/
def sampleRed : ColorRGBAf := ⟨Float32.one, Float32.zero, Float32.zero, Float32.one⟩

/-- A state with an empty call log and the given policy switch, clear color
`(1, 0, 0, 1)` and clear depth `1.0`. -/
def sampleState (enabled : Bool) : GLState where
  g_imageInitialization := ⟨enabled, ⟨sampleRed, Float32.one, 0⟩⟩
  calls := []

/-! ## Shared lemmas: machine integers, the call log, the format classes -/

theorem toInt32_of_lt {n : Nat} (h : n < 2 ^ 31) : toInt32 n = (n : Int) := by
  have h1 : n % 2 ^ 32 = n := Nat.mod_eq_of_lt (by omega)
  simp only [toInt32, h1, if_pos h]

theorem toSizeT_toInt32_of_lt {n : Nat} (h : n < 2 ^ 31) : toSizeT (toInt32 n) = n := by
  rw [toInt32_of_lt h]
  unfold toSizeT
  omega

theorem intToU32_toInt32 (n : Nat) : intToU32 (toInt32 n) = n % 2 ^ 32 := by
  unfold intToU32 toInt32
  split <;> omega

theorem u32_of_lt {n : Nat} (h : n < 2 ^ 32) : u32 n = n := Nat.mod_eq_of_lt h

theorem u32_mul_u32_left (a b : Nat) : u32 (u32 a * b) = u32 (a * b) := by
  unfold u32
  exact Nat.mod_mul_mod

theorem u32_mul_mod_right (a b : Nat) : u32 (a * (b % 2 ^ 32)) = u32 (a * b) := by
  unfold u32
  exact Nat.mul_mod_mod a b (2 ^ 32)

/-- The length requested from `GenImageDataRGBAf` / `GenImageDataRf` for an unsigned
32-bit count: the count itself below `2^31`, its sign extension to 64 bits above. -/
theorem toSizeT_toInt32 (n : Nat) :
    toSizeT (toInt32 n)
      = if n % 2 ^ 32 < 2 ^ 31 then n % 2 ^ 32 else 2 ^ 64 - 2 ^ 32 + n % 2 ^ 32 := by
  unfold toSizeT toInt32
  split <;> omega

theorem vectorMaxSize_16 : vectorMaxSize 16 = 2 ^ 59 - 1 := by decide

theorem vectorMaxSize_4 : vectorMaxSize 4 = 2 ^ 61 - 1 := by decide

/-- The vector constructor on a count converted from a 32-bit value read as `int`:
it builds the vector when the value is below `2^31` and throws otherwise. -/
theorem stdVector_toSizeT_toInt32 {α : Type} (k n : Nat) (value : α)
    (hk : 2 ^ 31 ≤ vectorMaxSize k ∧ vectorMaxSize k < 2 ^ 64 - 2 ^ 31) :
    stdVector k (toSizeT (toInt32 n)) value
      = if n % 2 ^ 32 < 2 ^ 31 then Except.ok (List.replicate (n % 2 ^ 32) value)
        else Except.error Exception.length_error := by
  unfold stdVector
  rw [toSizeT_toInt32]
  by_cases h : n % 2 ^ 32 < 2 ^ 31
  · rw [if_pos h, if_pos h, if_neg (by omega)]
  · rw [if_neg h, if_neg h, if_pos (by omega)]

theorem GenImageDataRGBAf_toInt32 (n : Nat) (color : ColorRGBAf) :
    GenImageDataRGBAf (toInt32 n) color
      = if n % 2 ^ 32 < 2 ^ 31 then Except.ok (List.replicate (n % 2 ^ 32) color)
        else Except.error Exception.length_error :=
  stdVector_toSizeT_toInt32 16 n color (by rw [vectorMaxSize_16]; omega)

theorem GenImageDataRf_toInt32 (n : Nat) (value : Float32) :
    GenImageDataRf (toInt32 n) value
      = if n % 2 ^ 32 < 2 ^ 31 then Except.ok (List.replicate (n % 2 ^ 32) value)
        else Except.error Exception.length_error :=
  stdVector_toSizeT_toInt32 4 n value (by rw [vectorMaxSize_4]; omega)

theorem GenImageDataRGBAf_of_lt {n m : Nat} (h : n % 2 ^ 32 = m) (hm : m < 2 ^ 31)
    (color : ColorRGBAf) :
    GenImageDataRGBAf (toInt32 n) color = Except.ok (List.replicate m color) := by
  rw [GenImageDataRGBAf_toInt32, h, if_pos hm]

theorem GenImageDataRf_of_lt {n m : Nat} (h : n % 2 ^ 32 = m) (hm : m < 2 ^ 31)
    (value : Float32) :
    GenImageDataRf (toInt32 n) value = Except.ok (List.replicate m value) := by
  rw [GenImageDataRf_toInt32, h, if_pos hm]

theorem GenImageDataRGBAf_of_ge {n : Nat} (h : 2 ^ 31 ≤ n % 2 ^ 32) (color : ColorRGBAf) :
    GenImageDataRGBAf (toInt32 n) color = Except.error Exception.length_error := by
  rw [GenImageDataRGBAf_toInt32, if_neg (by omega)]

theorem GenImageDataRf_of_ge {n : Nat} (h : 2 ^ 31 ≤ n % 2 ^ 32) (value : Float32) :
    GenImageDataRf (toInt32 n) value = Except.error Exception.length_error := by
  rw [GenImageDataRf_toInt32, if_neg (by omega)]

theorem mod_eq_of_lt31 {n : Nat} (h : n < 2 ^ 31) : n % 2 ^ 32 = n :=
  Nat.mod_eq_of_lt (by omega)

theorem u32_mod (n : Nat) : u32 n % 2 ^ 32 = n % 2 ^ 32 := Nat.mod_mod _ _

theorem callsMade_returned_self (s : GLState) : callsMade s (Outcome.returned s) = [] := by
  simp [callsMade, Outcome.state]

theorem callsMade_threw_self (e : Exception) (s : GLState) :
    callsMade s (Outcome.threw e s) = [] := by
  simp [callsMade, Outcome.state]

theorem callsMade_call (s : GLState) (c : GLCall) :
    callsMade s (Outcome.returned (s.call c)) = [c] := by
  simp [callsMade, Outcome.state, GLState.call]

theorem not_compressed_of_depthStencil {f : TextureFormat}
    (h : IsDepthStencilFormat f = true) : IsCompressedFormat f = false := by
  simp [IsDepthStencilFormat, IsCompressedFormat] at *
  simp [h]

theorem not_depthStencil_of_compressed {f : TextureFormat}
    (h : IsCompressedFormat f = true) : IsDepthStencilFormat f = false := by
  simp [IsDepthStencilFormat, IsCompressedFormat] at *
  simp [h]

theorem raised_returned (s : GLState) : (Outcome.returned s).raised = false := rfl

theorem raised_threw (e : Exception) (s : GLState) : (Outcome.threw e s).raised = true :=
  rfl

theorem raised_ite (c : Prop) [Decidable c] (a b : Outcome) :
    (if c then a else b).raised = if c then a.raised else b.raised :=
  apply_ite Outcome.raised c a b

theorem withImage_ok {α : Type} (v : List α) (s : GLState) (k : List α → GLState) :
    withImage (Except.ok v) s k = Outcome.returned (k v) := rfl

theorem withImage_error {α : Type} (e : Exception) (s : GLState) (k : List α → GLState) :
    withImage (Except.error e) s k = Outcome.threw e s := rfl

theorem withImage_ite {α : Type} (c : Prop) [Decidable c] (v : List α) (e : Exception)
    (s : GLState) (k : List α → GLState) :
    withImage (if c then Except.ok v else Except.error e) s k
      = if c then Outcome.returned (k v) else Outcome.threw e s := by
  split <;> rfl

theorem error_ite (c : Prop) [Decidable c] (a b : Outcome) :
    (if c then a else b).error = if c then a.error else b.error :=
  apply_ite Outcome.error c a b

theorem state_ite (c : Prop) [Decidable c] (a b : Outcome) :
    (if c then a else b).state = if c then a.state else b.state :=
  apply_ite Outcome.state c a b

/-- The argument an entry point passes to `GenImageDataRGBAf` or `GenImageDataRf` is
its `fillCount` modulo `2^32` (to be used after `u32_mod`). -/
theorem fillArg_tex3D (w h d : Nat) : u32 (w * h) * d % 2 ^ 32 = w * h * d % 2 ^ 32 :=
  u32_mul_u32_left (w * h) d

theorem fillArg_tex1DArray (w l : Nat) :
    w * intToU32 (toInt32 l) % 2 ^ 32 = w * l % 2 ^ 32 := by
  rw [intToU32_toInt32]
  exact Nat.mul_mod_mod _ _ _

theorem fillArg_tex2DArray (w h l : Nat) :
    u32 (w * h) * intToU32 (toInt32 l) % 2 ^ 32 = w * h * l % 2 ^ 32 := by
  rw [fillArg_tex1DArray]
  exact u32_mul_u32_left (w * h) l

theorem mul_u32_mod (a b : Nat) : a * u32 b % 2 ^ 32 = a * b % 2 ^ 32 :=
  Nat.mul_mod_mod _ _ _

theorem fillArg_texCubeArray (w h l : Nat) :
    u32 (w * h) * intToU32 (toInt32 (u32 (l * 6))) % 2 ^ 32
      = w * h * (l * 6) % 2 ^ 32 := by
  rw [fillArg_tex2DArray, mul_u32_mod]

/-- An entry point leaves `g_imageInitialization` alone and only appends to the call log. -/
theorem invoke_state (X : Externals) (e : EntryPoint) (desc : TextureDescriptor)
    (imageDesc : Option ImageDescriptor) (s : GLState) :
    (e.invoke X desc imageDesc s).state
      = ⟨s.g_imageInitialization, s.calls ++ callsMade s (e.invoke X desc imageDesc s)⟩ := by
  cases imageDesc <;>
    cases hds : IsDepthStencilFormat desc.format <;>
    cases hc : IsCompressedFormat desc.format <;>
    cases hen : s.g_imageInitialization.enabled <;>
    cases e <;>
    simp only [EntryPoint.invoke, GLTexImage1D, GLTexImage2D, GLTexImage3D, GLTexImageCube,
      GLTexImage1DArray, GLTexImage2DArray, GLTexImageCubeArray, hds, hc, hen,
      GenImageDataRGBAf_toInt32, GenImageDataRf_toInt32, withImage_ite,
      Bool.false_eq_true, if_false, if_true, Bool.or_false, Bool.or_true, Bool.not_true,
      Bool.not_false, Bool.false_or, Bool.true_or] <;>
    (try split_ifs) <;>
    simp [Static.GLTexImage1D, Static.GLTexImage2D, Static.GLTexImage3D,
      Static.GLTexImageCube,
      Static.GLTexImage1DArray, Static.GLTexImage2DArray, Static.GLTexImageCubeArray,
      GLTexImage1DBase, GLTexImage2DBase, GLTexImage3DBase, hds, hc, hen, GLState.call,
      callsMade, Outcome.state, cubeFaces, ErrIllegalUseOfDepthFormat]

/-- How an entry point called without a source image ends: with the error of
`ErrIllegalUseOfDepthFormat` on a depth-stencil format, except on `GLTexImage2D` and
`GLTexImage2DArray`; else with `std::length_error` when it generates a fill buffer
(policy enabled, format not compressed) whose 32-bit count is at least `2^31`; else
by returning. -/
theorem invoke_none_error (X : Externals) (e : EntryPoint) (desc : TextureDescriptor)
    (s : GLState) :
    (e.invoke X desc none s).error
      = if IsDepthStencilFormat desc.format = true ∧ e ≠ EntryPoint.tex2D ∧
            e ≠ EntryPoint.tex2DArray then
          some (Exception.runtime_error illegalDepthText)
        else if s.g_imageInitialization.enabled = true ∧
            IsCompressedFormat desc.format = false ∧
            2 ^ 31 ≤ e.fillCount desc % 2 ^ 32 then
          some Exception.length_error
        else none := by
  cases hds : IsDepthStencilFormat desc.format <;>
    cases hc : IsCompressedFormat desc.format <;>
    cases hen : s.g_imageInitialization.enabled <;>
    cases e <;>
    simp only [EntryPoint.invoke, GLTexImage1D, GLTexImage2D, GLTexImage3D, GLTexImageCube,
      GLTexImage1DArray, GLTexImage2DArray, GLTexImageCubeArray, hds, hc, hen,
      GenImageDataRGBAf_toInt32, GenImageDataRf_toInt32, withImage_ite, fillArg_tex3D,
      fillArg_tex1DArray, fillArg_tex2DArray, fillArg_texCubeArray, mul_u32_mod, u32_mod,
      EntryPoint.fillCount, ErrIllegalUseOfDepthFormat, illegalDepthText, error_ite,
      Outcome.error, Bool.false_eq_true, if_false, if_true, Bool.or_false, Bool.or_true,
      Bool.not_true, Bool.not_false, Bool.false_or, Bool.true_or, true_and, false_and,
      and_true, and_false, ne_eq, not_true_eq_false, not_false_eq_true, reduceCtorEq] <;>
    (try split_ifs) <;>
    first
    | rfl
    | omega
    | exact absurd (not_compressed_of_depthStencil hds) (by simp [hc])

/-- An entry point called with a source image returns. -/
theorem invoke_some_error (X : Externals) (e : EntryPoint) (desc : TextureDescriptor)
    (img : ImageDescriptor) (s : GLState) :
    (e.invoke X desc (some img) s).error = none := by
  cases e <;> rfl

theorem raised_iff_error (o : Outcome) : o.raised = true ↔ o.error ≠ none := by
  cases o <;> simp [Outcome.raised, Outcome.error]

theorem withImage_raised_state {α : Type} (r : Except Exception (List α)) (s : GLState)
    (k : List α → GLState) (h : (withImage r s k).raised = true) :
    (withImage r s k).state = s := by
  cases r with
  | error e => rfl
  | ok v => exact absurd h (by simp [withImage_ok, raised_returned])

/-- An entry point that raises has left the state as it was. -/
theorem invoke_raised_state (X : Externals) (e : EntryPoint) (desc : TextureDescriptor)
    (imageDesc : Option ImageDescriptor) (s : GLState)
    (h : (e.invoke X desc imageDesc s).raised = true) :
    (e.invoke X desc imageDesc s).state = s := by
  revert h
  cases imageDesc <;>
    cases hds : IsDepthStencilFormat desc.format <;>
    cases hc : IsCompressedFormat desc.format <;>
    cases hen : s.g_imageInitialization.enabled <;>
    cases e <;>
    simp only [EntryPoint.invoke, GLTexImage1D, GLTexImage2D, GLTexImage3D, GLTexImageCube,
      GLTexImage1DArray, GLTexImage2DArray, GLTexImageCubeArray, hds, hc, hen,
      Bool.false_eq_true, if_false, if_true, Bool.or_false, Bool.or_true, Bool.not_true,
      Bool.not_false, Bool.false_or, Bool.true_or] <;>
    first
    | exact withImage_raised_state _ _ _
    | simp [raised_returned, raised_threw, ErrIllegalUseOfDepthFormat, Outcome.state]

/-! ## Depth-stencil formats and source images -/

/-- C1 fails here: `GLTexImage2D` on a depth-stencil descriptor with a source image:
it returns, after one `glTexImage2D` call on the source data. -/
theorem depthStencil_with_source_tex2D_returns :
    IsDepthStencilFormat (sampleDesc sampleDepthFormat).format = true ∧
    (EntryPoint.tex2D.invoke sampleExternals (sampleDesc sampleDepthFormat)
      (some sampleImage) (sampleState true)).raised = false ∧
    callsMade (sampleState true)
      (EntryPoint.tex2D.invoke sampleExternals (sampleDesc sampleDepthFormat)
        (some sampleImage) (sampleState true))
      = [GLCall.glTexImage2D GLenum.GL_TEXTURE_2D 0 (GLenum.value 1) 4 4 0
          (GLenum.value 0) (GLenum.value 0) (DataPtr.addr 4096)] := by
  decide

/-- C1 (as amended): on each of the seven entry points, a depth-stencil
descriptor with a source image does not raise; the entry point takes the upload
path and makes one call (six for `GLTexImageCube`), each carrying a pointer into
the source image. -/
theorem depthStencil_with_source_uploads (X : Externals) (e : EntryPoint)
    (desc : TextureDescriptor) (img : ImageDescriptor) (s : GLState)
    (hds : IsDepthStencilFormat desc.format = true) :
    (e.invoke X desc (some img) s).raised = false ∧
    (callsMade s (e.invoke X desc (some img) s)).length
      = (if e = EntryPoint.texCube then 6 else 1) ∧
    ∀ c ∈ callsMade s (e.invoke X desc (some img) s),
      ∃ k, c.data? = some (DataPtr.addr (img.data + k)) := by
  have hc := not_compressed_of_depthStencil hds
  cases e <;>
    simp [EntryPoint.invoke, GLTexImage1D, GLTexImage2D, GLTexImage3D, GLTexImageCube,
      GLTexImage1DArray, GLTexImage2DArray, GLTexImageCubeArray,
      Static.GLTexImage1D, Static.GLTexImage2D, Static.GLTexImage3D, Static.GLTexImageCube,
      Static.GLTexImage1DArray, Static.GLTexImage2DArray, Static.GLTexImageCubeArray,
      GLTexImage1DBase, GLTexImage2DBase, GLTexImage3DBase, hc, GLState.call, callsMade,
      Outcome.state, Outcome.raised, cubeFaces, GLCall.data?]
  simp only [Nat.add_assoc]
  exact ⟨⟨_, rfl⟩, ⟨_, rfl⟩, ⟨_, rfl⟩, ⟨_, rfl⟩⟩

/-- Instance of C1, on the cube entry point with the sample depth-stencil descriptor and
source image. -/
theorem depthStencil_with_source_uploads_witness :
    IsDepthStencilFormat (sampleDesc sampleDepthFormat).format = true ∧
    (EntryPoint.texCube.invoke sampleExternals (sampleDesc sampleDepthFormat)
      (some sampleImage) (sampleState true)).raised = false ∧
    (callsMade (sampleState true) (EntryPoint.texCube.invoke sampleExternals
      (sampleDesc sampleDepthFormat) (some sampleImage) (sampleState true))).length = 6 :=
  ⟨by decide,
    (depthStencil_with_source_uploads sampleExternals EntryPoint.texCube
      (sampleDesc sampleDepthFormat) sampleImage (sampleState true) (by decide)).1,
    (depthStencil_with_source_uploads sampleExternals EntryPoint.texCube
      (sampleDesc sampleDepthFormat) sampleImage (sampleState true) (by decide)).2.1⟩

/-- C2 fails here: `GLTexImage1D` on a depth-stencil descriptor without a source
image: it raises, although no source image was supplied. -/
theorem raise_without_source_tex1D :
    (EntryPoint.tex1D.invoke sampleExternals (sampleDesc sampleDepthFormat) none
      (sampleState true)).raised = true ∧
    ¬ (IsDepthStencilFormat (sampleDesc sampleDepthFormat).format = true ∧
        (none : Option ImageDescriptor).isSome = true) := by
  decide

/-- C2 (as amended): an entry point raises only when no source image was supplied.
The error is then either the error of `ErrIllegalUseOfDepthFormat`, and the format is
depth-stencil, or the `std::length_error` of the constructor of the fill buffer, and
the policy is enabled, the format is not compressed and the 32-bit element count is
at least `2^31`. A call with a source image never raises, and the two multisample
entry points never raise. -/
theorem raise_only_without_source (X : Externals) (e : EntryPoint)
    (desc : TextureDescriptor) (imageDesc : Option ImageDescriptor) (s : GLState) :
    ((e.invoke X desc imageDesc s).raised = true →
      imageDesc = none ∧
      (((e.invoke X desc imageDesc s).error
            = some (Exception.runtime_error illegalDepthText) ∧
          IsDepthStencilFormat desc.format = true) ∨
        ((e.invoke X desc imageDesc s).error = some Exception.length_error ∧
          s.g_imageInitialization.enabled = true ∧
          IsCompressedFormat desc.format = false ∧
          2 ^ 31 ≤ e.fillCount desc % 2 ^ 32))) ∧
    (∀ img : ImageDescriptor, (e.invoke X desc (some img) s).raised = false) ∧
    (GLTexImage2DMS X desc s).raised = false ∧
    (GLTexImage2DMSArray X desc s).raised = false := by
  have hsome : ∀ img : ImageDescriptor, (e.invoke X desc (some img) s).raised = false := by
    intro img
    cases hr : (e.invoke X desc (some img) s).raised
    · rfl
    · exact absurd (invoke_some_error X e desc img s) ((raised_iff_error _).1 hr)
  refine ⟨?_, hsome, rfl, rfl⟩
  intro h
  cases imageDesc with
  | some img => rw [hsome img] at h; exact absurd h (by decide)
  | none =>
    refine ⟨rfl, ?_⟩
    have hne := (raised_iff_error _).1 h
    rw [invoke_none_error] at hne ⊢
    split_ifs at hne ⊢ with h1 h2
    · exact Or.inl ⟨rfl, h1.1⟩
    · exact Or.inr ⟨rfl, h2⟩
    · exact absurd rfl hne

/-- Instance of C2, on `GLTexImage3D` with the sample depth-stencil descriptor and no
source image. -/
theorem raise_only_without_source_witness :
    (EntryPoint.tex3D.invoke sampleExternals (sampleDesc sampleDepthFormat) none
      (sampleState false)).raised = true ∧
    (none : Option ImageDescriptor) = none ∧
    (((EntryPoint.tex3D.invoke sampleExternals (sampleDesc sampleDepthFormat) none
          (sampleState false)).error = some (Exception.runtime_error illegalDepthText) ∧
        IsDepthStencilFormat (sampleDesc sampleDepthFormat).format = true) ∨
      ((EntryPoint.tex3D.invoke sampleExternals (sampleDesc sampleDepthFormat) none
          (sampleState false)).error = some Exception.length_error ∧
        (sampleState false).g_imageInitialization.enabled = true ∧
        IsCompressedFormat (sampleDesc sampleDepthFormat).format = false ∧
        2 ^ 31 ≤ EntryPoint.tex3D.fillCount (sampleDesc sampleDepthFormat) % 2 ^ 32)) :=
  ⟨by decide,
    (raise_only_without_source sampleExternals EntryPoint.tex3D
      (sampleDesc sampleDepthFormat) none (sampleState false)).1 (by decide)⟩

/-- C3 fails here: `GLTexImage3D` on a depth-stencil descriptor without a source
image: it raises, with the policy enabled and with the policy disabled. -/
theorem depthStencil_without_source_tex3D_raises :
    IsDepthStencilFormat (sampleDesc sampleDepthFormat).format = true ∧
    (EntryPoint.tex3D.invoke sampleExternals (sampleDesc sampleDepthFormat) none
      (sampleState true)).raised = true ∧
    (EntryPoint.tex3D.invoke sampleExternals (sampleDesc sampleDepthFormat) none
      (sampleState false)).raised = true := by
  decide

/-- C3 (as amended): with a depth-stencil format and no source image,
`GLTexImage2D` and `GLTexImage2DArray` make one call with `GL_DEPTH_COMPONENT` /
`GL_FLOAT` and do not raise, in these cases: with the policy disabled the data
pointer is null; with the policy enabled and a pixel count below `2^31` the data is
a buffer of that many floats, all equal to the clear depth (in general the buffer
has the pixel count modulo `2^32`, when that is below `2^31`). With the policy
enabled and a 32-bit count of `2^31` or more, the constructor of the buffer throws
`std::length_error` and no call is made. The other five entry points raise the
error of `ErrIllegalUseOfDepthFormat` and make no call. -/
theorem depthStencil_without_source_outcome (X : Externals) (desc : TextureDescriptor)
    (s : GLState) (hds : IsDepthStencilFormat desc.format = true) :
    ((s.g_imageInitialization.enabled = false →
        (GLTexImage2D X desc none s).raised = false ∧
        callsMade s (GLTexImage2D X desc none s)
          = [GLCall.glTexImage2D GLenum.GL_TEXTURE_2D 0
              (X.MapTextureFormat desc.format)
              (toInt32 desc.texture2D.width) (toInt32 desc.texture2D.height) 0
              GLenum.GL_DEPTH_COMPONENT GLenum.GL_FLOAT
              DataPtr.nullptr]) ∧
      (s.g_imageInitialization.enabled = true →
        desc.texture2D.width * desc.texture2D.height % 2 ^ 32 < 2 ^ 31 →
        (GLTexImage2D X desc none s).raised = false ∧
        callsMade s (GLTexImage2D X desc none s)
          = [GLCall.glTexImage2D GLenum.GL_TEXTURE_2D 0
              (X.MapTextureFormat desc.format)
              (toInt32 desc.texture2D.width) (toInt32 desc.texture2D.height) 0
              GLenum.GL_DEPTH_COMPONENT GLenum.GL_FLOAT
              (DataPtr.rf (List.replicate
                (desc.texture2D.width * desc.texture2D.height % 2 ^ 32)
                s.g_imageInitialization.clearValue.depth))]) ∧
      (s.g_imageInitialization.enabled = true →
        desc.texture2D.width * desc.texture2D.height < 2 ^ 31 →
        (GLTexImage2D X desc none s).raised = false ∧
        callsMade s (GLTexImage2D X desc none s)
          = [GLCall.glTexImage2D GLenum.GL_TEXTURE_2D 0
              (X.MapTextureFormat desc.format)
              (toInt32 desc.texture2D.width) (toInt32 desc.texture2D.height) 0
              GLenum.GL_DEPTH_COMPONENT GLenum.GL_FLOAT
              (DataPtr.rf (List.replicate
                (desc.texture2D.width * desc.texture2D.height)
                s.g_imageInitialization.clearValue.depth))]) ∧
      (s.g_imageInitialization.enabled = true →
        2 ^ 31 ≤ desc.texture2D.width * desc.texture2D.height % 2 ^ 32 →
        (GLTexImage2D X desc none s).error = some Exception.length_error ∧
        callsMade s (GLTexImage2D X desc none s) = [])) ∧
    ((s.g_imageInitialization.enabled = false →
        (GLTexImage2DArray X desc none s).raised = false ∧
        callsMade s (GLTexImage2DArray X desc none s)
          = [GLCall.glTexImage3D GLenum.GL_TEXTURE_2D_ARRAY 0
              (X.MapTextureFormat desc.format)
              (toInt32 desc.texture2D.width) (toInt32 desc.texture2D.height) (toInt32 desc.texture2D.layers) 0
              GLenum.GL_DEPTH_COMPONENT GLenum.GL_FLOAT
              DataPtr.nullptr]) ∧
      (s.g_imageInitialization.enabled = true →
        desc.texture2D.width * desc.texture2D.height * desc.texture2D.layers % 2 ^ 32 < 2 ^ 31 →
        (GLTexImage2DArray X desc none s).raised = false ∧
        callsMade s (GLTexImage2DArray X desc none s)
          = [GLCall.glTexImage3D GLenum.GL_TEXTURE_2D_ARRAY 0
              (X.MapTextureFormat desc.format)
              (toInt32 desc.texture2D.width) (toInt32 desc.texture2D.height) (toInt32 desc.texture2D.layers) 0
              GLenum.GL_DEPTH_COMPONENT GLenum.GL_FLOAT
              (DataPtr.rf (List.replicate
                (desc.texture2D.width * desc.texture2D.height * desc.texture2D.layers % 2 ^ 32)
                s.g_imageInitialization.clearValue.depth))]) ∧
      (s.g_imageInitialization.enabled = true →
        desc.texture2D.width * desc.texture2D.height * desc.texture2D.layers < 2 ^ 31 →
        (GLTexImage2DArray X desc none s).raised = false ∧
        callsMade s (GLTexImage2DArray X desc none s)
          = [GLCall.glTexImage3D GLenum.GL_TEXTURE_2D_ARRAY 0
              (X.MapTextureFormat desc.format)
              (toInt32 desc.texture2D.width) (toInt32 desc.texture2D.height) (toInt32 desc.texture2D.layers) 0
              GLenum.GL_DEPTH_COMPONENT GLenum.GL_FLOAT
              (DataPtr.rf (List.replicate
                (desc.texture2D.width * desc.texture2D.height * desc.texture2D.layers)
                s.g_imageInitialization.clearValue.depth))]) ∧
      (s.g_imageInitialization.enabled = true →
        2 ^ 31 ≤ desc.texture2D.width * desc.texture2D.height * desc.texture2D.layers % 2 ^ 32 →
        (GLTexImage2DArray X desc none s).error = some Exception.length_error ∧
        callsMade s (GLTexImage2DArray X desc none s) = [])) ∧
    ∀ e : EntryPoint, e ≠ EntryPoint.tex2D → e ≠ EntryPoint.tex2DArray →
      (e.invoke X desc none s).error = some (Exception.runtime_error illegalDepthText) ∧
      callsMade s (e.invoke X desc none s) = [] := by
  have hc := not_compressed_of_depthStencil hds
  refine ⟨?_, ?_, ?_⟩
  · have hmod : u32 (desc.texture2D.width * desc.texture2D.height) % 2 ^ 32
        = desc.texture2D.width * desc.texture2D.height % 2 ^ 32 := by
      rw [u32_mod]
    refine ⟨?_, ?_, ?_, ?_⟩
    · intro hen
      simp [GLTexImage2D, hds, hen, raised_returned, Static.GLTexImage2D, GLTexImage2DBase, hc, callsMade_call]
    · intro hen hlt
      have hg := GenImageDataRf_of_lt hmod hlt s.g_imageInitialization.clearValue.depth
      simp [GLTexImage2D, hds, hen, hg, withImage_ok, raised_returned, Static.GLTexImage2D, GLTexImage2DBase, hc,
        callsMade_call]
    · intro hen hlt
      have hg := GenImageDataRf_of_lt (hmod.trans (mod_eq_of_lt31 hlt)) hlt
        s.g_imageInitialization.clearValue.depth
      simp [GLTexImage2D, hds, hen, hg, withImage_ok, raised_returned, Static.GLTexImage2D, GLTexImage2DBase, hc,
        callsMade_call]
    · intro hen hge
      have hg := GenImageDataRf_of_ge (hmod ▸ hge) s.g_imageInitialization.clearValue.depth
      simp [GLTexImage2D, hds, hen, hg, withImage_error, Outcome.error, callsMade_threw_self]
  · have hmod : u32 (u32 (desc.texture2D.width * desc.texture2D.height)
        * intToU32 (toInt32 desc.texture2D.layers)) % 2 ^ 32
        = desc.texture2D.width * desc.texture2D.height * desc.texture2D.layers % 2 ^ 32 := by
      rw [u32_mod, fillArg_tex2DArray]
    refine ⟨?_, ?_, ?_, ?_⟩
    · intro hen
      simp [GLTexImage2DArray, hds, hen, raised_returned, Static.GLTexImage2DArray, GLTexImage3DBase, hc, callsMade_call]
    · intro hen hlt
      have hg := GenImageDataRf_of_lt hmod hlt s.g_imageInitialization.clearValue.depth
      simp [GLTexImage2DArray, hds, hen, hg, withImage_ok, raised_returned, Static.GLTexImage2DArray, GLTexImage3DBase, hc,
        callsMade_call]
    · intro hen hlt
      have hg := GenImageDataRf_of_lt (hmod.trans (mod_eq_of_lt31 hlt)) hlt
        s.g_imageInitialization.clearValue.depth
      simp [GLTexImage2DArray, hds, hen, hg, withImage_ok, raised_returned, Static.GLTexImage2DArray, GLTexImage3DBase, hc,
        callsMade_call]
    · intro hen hge
      have hg := GenImageDataRf_of_ge (hmod ▸ hge) s.g_imageInitialization.clearValue.depth
      simp [GLTexImage2DArray, hds, hen, hg, withImage_error, Outcome.error, callsMade_threw_self]
  · intro e h2 h2a
    cases e <;>
      first
      | exact absurd rfl h2
      | exact absurd rfl h2a
      | simp [EntryPoint.invoke, GLTexImage1D, GLTexImage3D, GLTexImageCube,
          GLTexImage1DArray, GLTexImageCubeArray, hds, ErrIllegalUseOfDepthFormat,
          Outcome.error, illegalDepthText, callsMade_threw_self]

/-- Instance of C3, on the sample depth-stencil descriptor (4 by 4): with the policy
disabled `GLTexImage2D` reserves storage, with the policy enabled it uploads 16
floats, and `GLTexImageCube` raises. -/
theorem depthStencil_without_source_outcome_witness :
    IsDepthStencilFormat (sampleDesc sampleDepthFormat).format = true ∧
    callsMade (sampleState false)
      (GLTexImage2D sampleExternals (sampleDesc sampleDepthFormat) none (sampleState false))
      = [GLCall.glTexImage2D GLenum.GL_TEXTURE_2D 0 (GLenum.value 1) 4 4 0
          GLenum.GL_DEPTH_COMPONENT GLenum.GL_FLOAT DataPtr.nullptr] ∧
    callsMade (sampleState true)
      (GLTexImage2D sampleExternals (sampleDesc sampleDepthFormat) none (sampleState true))
      = [GLCall.glTexImage2D GLenum.GL_TEXTURE_2D 0 (GLenum.value 1) 4 4 0
          GLenum.GL_DEPTH_COMPONENT GLenum.GL_FLOAT
          (DataPtr.rf (List.replicate 16 Float32.one))] ∧
    (EntryPoint.texCube.invoke sampleExternals (sampleDesc sampleDepthFormat) none
      (sampleState true)).error = some (Exception.runtime_error illegalDepthText) :=
  ⟨by decide,
    ((depthStencil_without_source_outcome sampleExternals (sampleDesc sampleDepthFormat)
      (sampleState false) (by decide)).1.1 (by decide)).2,
    ((depthStencil_without_source_outcome sampleExternals (sampleDesc sampleDepthFormat)
      (sampleState true) (by decide)).1.2.2.1 (by decide) (by decide)).2,
    ((depthStencil_without_source_outcome sampleExternals (sampleDesc sampleDepthFormat)
      (sampleState true) (by decide)).2.2 EntryPoint.texCube (by decide) (by decide)).1⟩

/-- C4 fails here: `GLTexImageCube` with the policy disabled, no source image and a
plain-color format: it makes six calls, not one. -/
theorem policy_disabled_texCube_six_calls :
    (sampleState false).g_imageInitialization.enabled = false ∧
    (callsMade (sampleState false)
      (EntryPoint.texCube.invoke sampleExternals (sampleDesc sampleColorFormat) none
        (sampleState false))).length = 6 ∧
    ¬ (callsMade (sampleState false)
      (EntryPoint.texCube.invoke sampleExternals (sampleDesc sampleColorFormat) none
        (sampleState false))).length = 1 := by
  decide

/-- C4 (as amended): with the policy disabled and no source image, every call an
entry point makes carries a null data pointer, and the entry point makes exactly
one call (six for `GLTexImageCube`), for every format on `GLTexImage2D` and
`GLTexImage2DArray` and for every format that is not depth-stencil on the other
five entry points. -/
theorem policy_disabled_without_source_storage_only (X : Externals) (e : EntryPoint)
    (desc : TextureDescriptor) (s : GLState)
    (hoff : s.g_imageInitialization.enabled = false)
    (hshape : e = EntryPoint.tex2D ∨ e = EntryPoint.tex2DArray ∨
      IsDepthStencilFormat desc.format = false) :
    (e.invoke X desc none s).raised = false ∧
    (callsMade s (e.invoke X desc none s)).length
      = (if e = EntryPoint.texCube then 6 else 1) ∧
    ∀ c ∈ callsMade s (e.invoke X desc none s), c.data? = some DataPtr.nullptr := by
  cases hds : IsDepthStencilFormat desc.format <;>
    cases hc : IsCompressedFormat desc.format <;>
    cases e <;>
    simp [hds] at hshape <;>
    simp [EntryPoint.invoke, GLTexImage1D, GLTexImage2D, GLTexImage3D, GLTexImageCube,
      GLTexImage1DArray, GLTexImage2DArray, GLTexImageCubeArray,
      Static.GLTexImage1D, Static.GLTexImage2D, Static.GLTexImage3D, Static.GLTexImageCube,
      Static.GLTexImage1DArray, Static.GLTexImage2DArray, Static.GLTexImageCubeArray,
      GLTexImage1DBase, GLTexImage2DBase, GLTexImage3DBase, hds, hc, hoff, GLState.call,
      callsMade, Outcome.state, raised_returned, cubeFaces, GLCall.data?]

/-- Instance of C4, on `GLTexImage1D` with the sample plain-color descriptor and the
policy disabled. -/
theorem policy_disabled_without_source_storage_only_witness :
    (sampleState false).g_imageInitialization.enabled = false ∧
    (EntryPoint.tex1D.invoke sampleExternals (sampleDesc sampleColorFormat) none
      (sampleState false)).raised = false ∧
    (callsMade (sampleState false) (EntryPoint.tex1D.invoke sampleExternals
      (sampleDesc sampleColorFormat) none (sampleState false))).length = 1 :=
  ⟨by decide,
    (policy_disabled_without_source_storage_only sampleExternals EntryPoint.tex1D
      (sampleDesc sampleColorFormat) (sampleState false) (by decide) (by decide)).1,
    (policy_disabled_without_source_storage_only sampleExternals EntryPoint.tex1D
      (sampleDesc sampleColorFormat) (sampleState false) (by decide) (by decide)).2.1⟩

/-- C5 fails here: `GLTexImageCube` on a compressed format without a source image: it
makes six calls, not one. -/
theorem compressed_texCube_six_calls :
    IsCompressedFormat (sampleDesc sampleCompressedFormat).format = true ∧
    (callsMade (sampleState true)
      (EntryPoint.texCube.invoke sampleExternals (sampleDesc sampleCompressedFormat) none
        (sampleState true))).length = 6 ∧
    ¬ (callsMade (sampleState true)
      (EntryPoint.texCube.invoke sampleExternals (sampleDesc sampleCompressedFormat) none
        (sampleState true))).length = 1 := by
  decide

/-- C5 (as amended): on a compressed format without a source image, whatever the
policy, an entry point does not raise, makes exactly one call (six for
`GLTexImageCube`), and every call is storage-only: its data pointer is null, so
no generated fill buffer is passed. -/
theorem compressed_without_source_storage_only (X : Externals) (e : EntryPoint)
    (desc : TextureDescriptor) (s : GLState)
    (hcomp : IsCompressedFormat desc.format = true) :
    (e.invoke X desc none s).raised = false ∧
    (callsMade s (e.invoke X desc none s)).length
      = (if e = EntryPoint.texCube then 6 else 1) ∧
    ∀ c ∈ callsMade s (e.invoke X desc none s), c.data? = some DataPtr.nullptr := by
  have hds := not_depthStencil_of_compressed hcomp
  cases e <;>
    simp [EntryPoint.invoke, GLTexImage1D, GLTexImage2D, GLTexImage3D, GLTexImageCube,
      GLTexImage1DArray, GLTexImage2DArray, GLTexImageCubeArray,
      Static.GLTexImage1D, Static.GLTexImage2D, Static.GLTexImage3D, Static.GLTexImageCube,
      Static.GLTexImage1DArray, Static.GLTexImage2DArray, Static.GLTexImageCubeArray,
      GLTexImage1DBase, GLTexImage2DBase, GLTexImage3DBase, hds, hcomp, GLState.call,
      callsMade, Outcome.state, raised_returned, cubeFaces, GLCall.data?]

/-- Instance of C5, on `GLTexImage3D` with the sample compressed descriptor. -/
theorem compressed_without_source_storage_only_witness :
    IsCompressedFormat (sampleDesc sampleCompressedFormat).format = true ∧
    (callsMade (sampleState true) (EntryPoint.tex3D.invoke sampleExternals
      (sampleDesc sampleCompressedFormat) none (sampleState true))).length = 1 :=
  ⟨by decide,
    (compressed_without_source_storage_only sampleExternals EntryPoint.tex3D
      (sampleDesc sampleCompressedFormat) (sampleState true) (by decide)).2.1⟩

/-! ## The cube entry point on a source image -/

/-- C6: `GLTexImageCube` with a source image and a format that is not compressed
makes exactly six `glTexImage2D` calls, on the faces +X, -X, +Y, -Y, +Z, -Z in
this order, and the data pointer of face `i` is the start of the source buffer
plus `i * (width * height * elementSize)` bytes, with `elementSize` the product of
`ImageFormatSize` and `DataTypeSize` of the image, when this stride is below
`2^32`. -/
theorem texCube_source_uncompressed_face_calls (X : Externals) (desc : TextureDescriptor)
    (img : ImageDescriptor) (s : GLState)
    (hnc : IsCompressedFormat desc.format = false)
    (hov : desc.textureCube.width * desc.textureCube.height
      * (X.ImageFormatSize img.format * X.DataTypeSize img.dataType) < 2 ^ 32) :
    (GLTexImageCube X desc (some img) s).raised = false ∧
    callsMade s (GLTexImageCube X desc (some img) s)
      = [(0, AxisDirection.XPos), (1, AxisDirection.XNeg), (2, AxisDirection.YPos),
          (3, AxisDirection.YNeg), (4, AxisDirection.ZPos), (5, AxisDirection.ZNeg)].map
        (fun p => GLCall.glTexImage2D (X.MapAxisDirection p.2) 0
          (X.MapTextureFormat desc.format)
          (toInt32 desc.textureCube.width) (toInt32 desc.textureCube.height) 0
          (X.MapImageFormat img.format) (X.MapDataType img.dataType)
          (DataPtr.addr (img.data + p.1 * (desc.textureCube.width * desc.textureCube.height
            * (X.ImageFormatSize img.format * X.DataTypeSize img.dataType))))) := by
  have hk : u32 (u32 (u32 (desc.textureCube.width * desc.textureCube.height)
      * X.ImageFormatSize img.format) * X.DataTypeSize img.dataType)
      = desc.textureCube.width * desc.textureCube.height
        * (X.ImageFormatSize img.format * X.DataTypeSize img.dataType) := by
    rw [u32_mul_u32_left, Nat.mul_assoc, u32_mul_u32_left, u32_of_lt hov]
  generalize desc.textureCube.width * desc.textureCube.height
    * (X.ImageFormatSize img.format * X.DataTypeSize img.dataType) = k at hk
  refine ⟨rfl, ?_⟩
  simp only [GLTexImageCube, hnc, hk, cubeFaces, List.foldl, Static.GLTexImageCube,
    GLTexImage2DBase, GLState.call, callsMade, Outcome.state, List.map]
  simp
  omega

/-- Instance of C6, on the sample 4 by 4 plain-color descriptor and an image with 4-byte
elements: the face stride is 64 bytes. -/
theorem texCube_source_uncompressed_face_calls_witness :
    IsCompressedFormat (sampleDesc sampleColorFormat).format = false ∧
    callsMade (sampleState true)
      (GLTexImageCube sampleExternals (sampleDesc sampleColorFormat) (some sampleImage)
        (sampleState true))
      = [GLCall.glTexImage2D (GLenum.value 0x8515) 0 (GLenum.value 10) 4 4 0
            (GLenum.value 0) (GLenum.value 0) (DataPtr.addr 4096),
          GLCall.glTexImage2D (GLenum.value 0x8516) 0 (GLenum.value 10) 4 4 0
            (GLenum.value 0) (GLenum.value 0) (DataPtr.addr (4096 + 64)),
          GLCall.glTexImage2D (GLenum.value 0x8517) 0 (GLenum.value 10) 4 4 0
            (GLenum.value 0) (GLenum.value 0) (DataPtr.addr (4096 + 128)),
          GLCall.glTexImage2D (GLenum.value 0x8518) 0 (GLenum.value 10) 4 4 0
            (GLenum.value 0) (GLenum.value 0) (DataPtr.addr (4096 + 192)),
          GLCall.glTexImage2D (GLenum.value 0x8519) 0 (GLenum.value 10) 4 4 0
            (GLenum.value 0) (GLenum.value 0) (DataPtr.addr (4096 + 256)),
          GLCall.glTexImage2D (GLenum.value 0x851A) 0 (GLenum.value 10) 4 4 0
            (GLenum.value 0) (GLenum.value 0) (DataPtr.addr (4096 + 320))] :=
  ⟨by decide,
    (texCube_source_uncompressed_face_calls sampleExternals (sampleDesc sampleColorFormat)
      sampleImage (sampleState true) (by decide) (by decide)).2⟩

/-! ## Generated fill buffers of `GLTexImage2D` -/

/-- C7: `GLTexImage2D` on a plain-color format, with the policy enabled, no source
image and `width * height < 2^31`, makes exactly one call, an upload with
`GL_RGBA` / `GL_FLOAT` of a generated buffer of `width * height` elements, each
equal to the clear color, with the width and height of the descriptor (passed as
`GLsizei`, which keeps their values when both are at least 1). -/
theorem tex2D_default_color_fill (X : Externals) (desc : TextureDescriptor) (s : GLState)
    (hnd : IsDepthStencilFormat desc.format = false)
    (hnc : IsCompressedFormat desc.format = false)
    (hen : s.g_imageInitialization.enabled = true)
    (hlt : desc.texture2D.width * desc.texture2D.height < 2 ^ 31) :
    (GLTexImage2D X desc none s).raised = false ∧
    (∃ image : List ColorRGBAf,
      image.length = desc.texture2D.width * desc.texture2D.height ∧
      (∀ x ∈ image, x = s.g_imageInitialization.clearValue.color) ∧
      image = List.replicate (desc.texture2D.width * desc.texture2D.height)
        s.g_imageInitialization.clearValue.color ∧
      callsMade s (GLTexImage2D X desc none s)
        = [GLCall.glTexImage2D GLenum.GL_TEXTURE_2D 0 (X.MapTextureFormat desc.format)
            (toInt32 desc.texture2D.width) (toInt32 desc.texture2D.height) 0
            GLenum.GL_RGBA GLenum.GL_FLOAT (DataPtr.rgbaf image)]) ∧
    (1 ≤ desc.texture2D.width → 1 ≤ desc.texture2D.height →
      toInt32 desc.texture2D.width = (desc.texture2D.width : Int) ∧
      toInt32 desc.texture2D.height = (desc.texture2D.height : Int)) := by
  have hg := GenImageDataRGBAf_of_lt
    (n := u32 (desc.texture2D.width * desc.texture2D.height))
    (by rw [u32_mod]; exact mod_eq_of_lt31 hlt) hlt s.g_imageInitialization.clearValue.color
  refine ⟨?_, ⟨_, List.length_replicate _ _, fun x hx => List.eq_of_mem_replicate hx, rfl, ?_⟩,
    ?_⟩
  · simp [GLTexImage2D, hnd, hnc, hen, hg, withImage_ok, raised_returned]
  · simp [GLTexImage2D, hnd, hnc, hen, hg, withImage_ok, Static.GLTexImage2D,
      GLTexImage2DBase, callsMade_call]
  · intro hw hh
    have h1 : desc.texture2D.width < 2 ^ 31 :=
      lt_of_le_of_lt (Nat.le_mul_of_pos_right _ hh) hlt
    have h2 : desc.texture2D.height < 2 ^ 31 :=
      lt_of_le_of_lt (Nat.le_mul_of_pos_left _ hw) hlt
    exact ⟨toInt32_of_lt h1, toInt32_of_lt h2⟩

/-- Instance of C7, at width 4, height 4 and clear color `(1, 0, 0, 1)`: 16 elements,
each `(1, 0, 0, 1)`. -/
theorem tex2D_default_color_fill_witness :
    (IsDepthStencilFormat (sampleDesc sampleColorFormat).format = false ∧
      IsCompressedFormat (sampleDesc sampleColorFormat).format = false ∧
      (sampleState true).g_imageInitialization.enabled = true ∧
      (sampleDesc sampleColorFormat).texture2D.width = 4 ∧
      (sampleDesc sampleColorFormat).texture2D.height = 4 ∧
      (sampleState true).g_imageInitialization.clearValue.color
        = ⟨Float32.one, Float32.zero, Float32.zero, Float32.one⟩) ∧
    ∃ image : List ColorRGBAf,
      image.length = 16 ∧
      (∀ x ∈ image, x = ⟨Float32.one, Float32.zero, Float32.zero, Float32.one⟩) ∧
      image = List.replicate 16 ⟨Float32.one, Float32.zero, Float32.zero, Float32.one⟩ ∧
      callsMade (sampleState true)
        (GLTexImage2D sampleExternals (sampleDesc sampleColorFormat) none (sampleState true))
        = [GLCall.glTexImage2D GLenum.GL_TEXTURE_2D 0 (GLenum.value 10) 4 4 0
            GLenum.GL_RGBA GLenum.GL_FLOAT (DataPtr.rgbaf image)] :=
  ⟨by decide,
    (tex2D_default_color_fill sampleExternals (sampleDesc sampleColorFormat)
      (sampleState true) (by decide) (by decide) (by decide) (by decide)).2.1⟩

/-- C8: `GLTexImage2D` on a depth-stencil format, with the policy enabled, no
source image and `width * height < 2^31`, makes exactly one call, an upload with
`GL_DEPTH_COMPONENT` / `GL_FLOAT` of a generated buffer of `width * height` floats,
all equal to the clear depth. -/
theorem tex2D_default_depth_fill (X : Externals) (desc : TextureDescriptor) (s : GLState)
    (hds : IsDepthStencilFormat desc.format = true)
    (hen : s.g_imageInitialization.enabled = true)
    (hlt : desc.texture2D.width * desc.texture2D.height < 2 ^ 31) :
    (GLTexImage2D X desc none s).raised = false ∧
    ∃ image : List Float32,
      image.length = desc.texture2D.width * desc.texture2D.height ∧
      (∀ x ∈ image, x = s.g_imageInitialization.clearValue.depth) ∧
      image = List.replicate (desc.texture2D.width * desc.texture2D.height)
        s.g_imageInitialization.clearValue.depth ∧
      callsMade s (GLTexImage2D X desc none s)
        = [GLCall.glTexImage2D GLenum.GL_TEXTURE_2D 0 (X.MapTextureFormat desc.format)
            (toInt32 desc.texture2D.width) (toInt32 desc.texture2D.height) 0
            GLenum.GL_DEPTH_COMPONENT GLenum.GL_FLOAT (DataPtr.rf image)] := by
  have hnc := not_compressed_of_depthStencil hds
  have hg := GenImageDataRf_of_lt
    (n := u32 (desc.texture2D.width * desc.texture2D.height))
    (by rw [u32_mod]; exact mod_eq_of_lt31 hlt) hlt s.g_imageInitialization.clearValue.depth
  refine ⟨?_, _, List.length_replicate _ _, fun x hx => List.eq_of_mem_replicate hx, rfl, ?_⟩
  · simp [GLTexImage2D, hds, hen, hg, withImage_ok, raised_returned]
  · simp [GLTexImage2D, hds, hnc, hen, hg, withImage_ok, Static.GLTexImage2D,
      GLTexImage2DBase, callsMade_call]

/-- Instance of C8, at width 4, height 4 and clear depth `1.0`: 16 floats, all `1.0`. -/
theorem tex2D_default_depth_fill_witness :
    (IsDepthStencilFormat (sampleDesc sampleDepthFormat).format = true ∧
      (sampleState true).g_imageInitialization.enabled = true ∧
      (sampleDesc sampleDepthFormat).texture2D.width = 4 ∧
      (sampleDesc sampleDepthFormat).texture2D.height = 4 ∧
      (sampleState true).g_imageInitialization.clearValue.depth = Float32.one) ∧
    ∃ image : List Float32,
      image.length = 16 ∧
      (∀ x ∈ image, x = Float32.one) ∧
      image = List.replicate 16 Float32.one ∧
      callsMade (sampleState true)
        (GLTexImage2D sampleExternals (sampleDesc sampleDepthFormat) none (sampleState true))
        = [GLCall.glTexImage2D GLenum.GL_TEXTURE_2D 0 (GLenum.value 1) 4 4 0
            GLenum.GL_DEPTH_COMPONENT GLenum.GL_FLOAT (DataPtr.rf image)] :=
  ⟨by decide,
    (tex2D_default_depth_fill sampleExternals (sampleDesc sampleDepthFormat)
      (sampleState true) (by decide) (by decide) (by decide)).2⟩

/-! ## Errors and backend calls -/

/-- C9: whenever an entry point raises, the invocation has made no backend call:
the call log, and the whole state, are as they were at entry. The two multisample
entry points are included; they never raise. -/
theorem raise_makes_no_backend_call (X : Externals) (e : EntryPoint)
    (desc : TextureDescriptor) (imageDesc : Option ImageDescriptor) (s : GLState) :
    ((e.invoke X desc imageDesc s).raised = true →
      callsMade s (e.invoke X desc imageDesc s) = [] ∧
      (e.invoke X desc imageDesc s).state = s) ∧
    ((GLTexImage2DMS X desc s).raised = true →
      callsMade s (GLTexImage2DMS X desc s) = []) ∧
    ((GLTexImage2DMSArray X desc s).raised = true →
      callsMade s (GLTexImage2DMSArray X desc s) = []) := by
  refine ⟨?_, fun h => absurd h (by simp [GLTexImage2DMS, raised_returned]),
    fun h => absurd h (by simp [GLTexImage2DMSArray, raised_returned])⟩
  intro h
  have hs := invoke_raised_state X e desc imageDesc s h
  exact ⟨by simp [callsMade, hs], hs⟩

/-- Instance of C9, on `GLTexImageCubeArray` with the sample depth-stencil descriptor
and no source image. -/
theorem raise_makes_no_backend_call_witness :
    (EntryPoint.texCubeArray.invoke sampleExternals (sampleDesc sampleDepthFormat) none
      (sampleState true)).raised = true ∧
    callsMade (sampleState true)
      (EntryPoint.texCubeArray.invoke sampleExternals (sampleDesc sampleDepthFormat) none
        (sampleState true)) = [] ∧
    (EntryPoint.texCubeArray.invoke sampleExternals (sampleDesc sampleDepthFormat) none
      (sampleState true)).state = sampleState true :=
  ⟨by decide,
    (raise_makes_no_backend_call sampleExternals EntryPoint.texCubeArray
      (sampleDesc sampleDepthFormat) none (sampleState true)).1 (by decide)⟩

/-- C10: every `GLTexImageCube` invocation that returns without error, on the
source-image path, the storage-only path and the default-color path alike, makes
exactly six calls, each one of the two single-face primitives (`glTexImage2D`,
`glCompressedTexImage2D`), on the faces +X, -X, +Y, -Y, +Z, -Z in this order, each
with the format, width and height of the descriptor. -/
theorem texCube_returns_six_face_calls (X : Externals) (desc : TextureDescriptor)
    (imageDesc : Option ImageDescriptor) (s : GLState)
    (hret : (GLTexImageCube X desc imageDesc s).raised = false) :
    (callsMade s (GLTexImageCube X desc imageDesc s)).length = 6 ∧
    (callsMade s (GLTexImageCube X desc imageDesc s)).map GLCall.target
      = [X.MapAxisDirection AxisDirection.XPos, X.MapAxisDirection AxisDirection.XNeg,
          X.MapAxisDirection AxisDirection.YPos, X.MapAxisDirection AxisDirection.YNeg,
          X.MapAxisDirection AxisDirection.ZPos, X.MapAxisDirection AxisDirection.ZNeg] ∧
    ∀ c ∈ callsMade s (GLTexImageCube X desc imageDesc s),
      c.isTexImage2D = true ∧
      c.internalformat = X.MapTextureFormat desc.format ∧
      c.width = toInt32 desc.textureCube.width ∧
      c.height? = some (toInt32 desc.textureCube.height) := by
  revert hret
  cases imageDesc <;>
    cases hds : IsDepthStencilFormat desc.format <;>
    cases hc : IsCompressedFormat desc.format <;>
    cases hen : s.g_imageInitialization.enabled <;>
    simp only [EntryPoint.invoke, GLTexImage1D, GLTexImage2D, GLTexImage3D, GLTexImageCube,
      GLTexImage1DArray, GLTexImage2DArray, GLTexImageCubeArray, hds, hc, hen,
      GenImageDataRGBAf_toInt32, GenImageDataRf_toInt32, withImage_ite,
      Bool.false_eq_true, if_false, if_true, Bool.or_false, Bool.or_true, Bool.not_true,
      Bool.not_false, Bool.false_or, Bool.true_or] <;>
    (try split_ifs) <;>
    simp [Static.GLTexImage1D, Static.GLTexImage2D, Static.GLTexImage3D,
      Static.GLTexImageCube, Static.GLTexImage1DArray, Static.GLTexImage2DArray,
      Static.GLTexImageCubeArray, GLTexImage1DBase, GLTexImage2DBase, GLTexImage3DBase,
      hds, hc, hen, GLState.call, callsMade, Outcome.state, Outcome.error, cubeFaces,
      ErrIllegalUseOfDepthFormat, raised_returned, raised_threw,
      GLCall.target, GLCall.isTexImage2D, GLCall.internalformat, GLCall.width,
      GLCall.height?]

/-- Instance of C10, on the sample compressed descriptor with a source image. -/
theorem texCube_returns_six_face_calls_witness :
    (GLTexImageCube sampleExternals (sampleDesc sampleCompressedFormat) (some sampleImage)
      (sampleState true)).raised = false ∧
    (callsMade (sampleState true)
      (GLTexImageCube sampleExternals (sampleDesc sampleCompressedFormat) (some sampleImage)
        (sampleState true))).length = 6 ∧
    (callsMade (sampleState true)
      (GLTexImageCube sampleExternals (sampleDesc sampleCompressedFormat) (some sampleImage)
        (sampleState true))).map GLCall.target
      = [GLenum.value 0x8515, GLenum.value 0x8516, GLenum.value 0x8517,
          GLenum.value 0x8518, GLenum.value 0x8519, GLenum.value 0x851A] :=
  ⟨by decide,
    (texCube_returns_six_face_calls sampleExternals (sampleDesc sampleCompressedFormat)
      (some sampleImage) (sampleState true) (by decide)).1,
    (texCube_returns_six_face_calls sampleExternals (sampleDesc sampleCompressedFormat)
      (some sampleImage) (sampleState true) (by decide)).2.1⟩

/-! ## Array and multisample entry points -/

/-- C11 fails here: the one call of `GLTexImageCubeArray` on a descriptor with 2
layers has depth 12, six times the layer count. -/
theorem texCubeArray_depth_is_six_layers :
    (sampleDesc sampleColorFormat).textureCube.layers = 2 ∧
    (GLTexImageCubeArray sampleExternals (sampleDesc sampleColorFormat) none
      (sampleState false)).raised = false ∧
    callsMade (sampleState false)
      (GLTexImageCubeArray sampleExternals (sampleDesc sampleColorFormat) none
        (sampleState false))
      = [GLCall.glTexImage3D GLenum.GL_TEXTURE_CUBE_MAP_ARRAY 0 (GLenum.value 10) 4 4 12 0
          GLenum.GL_RGBA GLenum.GL_UNSIGNED_BYTE DataPtr.nullptr] ∧
    (GLCall.glTexImage3D GLenum.GL_TEXTURE_CUBE_MAP_ARRAY 0 (GLenum.value 10) 4 4 12 0
      GLenum.GL_RGBA GLenum.GL_UNSIGNED_BYTE DataPtr.nullptr).depth? ≠ some 2 := by
  decide

/-- C11 (as amended): each array entry point that returns without error makes
exactly one call, not one per layer. The height of the call of `GLTexImage1DArray`
and the depth of the call of `GLTexImage2DArray` are the layer count of the
descriptor; the depth of the call of `GLTexImageCubeArray` is six times the layer
count (`layers * 6` in 32-bit arithmetic, passed as `GLsizei`). -/
theorem array_entry_points_single_call (X : Externals) (desc : TextureDescriptor)
    (imageDesc : Option ImageDescriptor) (s : GLState) :
    ((GLTexImage1DArray X desc imageDesc s).raised = false →
      ∃ c, callsMade s (GLTexImage1DArray X desc imageDesc s) = [c] ∧
        c.height? = some (toInt32 desc.texture1D.layers)) ∧
    ((GLTexImage2DArray X desc imageDesc s).raised = false →
      ∃ c, callsMade s (GLTexImage2DArray X desc imageDesc s) = [c] ∧
        c.depth? = some (toInt32 desc.texture2D.layers)) ∧
    ((GLTexImageCubeArray X desc imageDesc s).raised = false →
      ∃ c, callsMade s (GLTexImageCubeArray X desc imageDesc s) = [c] ∧
        c.depth? = some (toInt32 (u32 (desc.textureCube.layers * 6))) ∧
        (desc.textureCube.layers * 6 < 2 ^ 31 →
          c.depth? = some ((desc.textureCube.layers * 6 : Nat) : Int))) := by
  have h6 : desc.textureCube.layers * 6 < 2 ^ 31 →
      toInt32 (u32 (desc.textureCube.layers * 6))
        = ((desc.textureCube.layers * 6 : Nat) : Int) := by
    intro h
    rw [u32_of_lt (by omega), toInt32_of_lt h]
  refine ⟨?_, ?_, ?_⟩ <;>
    cases imageDesc <;>
    cases hds : IsDepthStencilFormat desc.format <;>
    cases hc : IsCompressedFormat desc.format <;>
    cases hen : s.g_imageInitialization.enabled <;>
    simp only [EntryPoint.invoke, GLTexImage1D, GLTexImage2D, GLTexImage3D, GLTexImageCube,
      GLTexImage1DArray, GLTexImage2DArray, GLTexImageCubeArray, hds, hc, hen,
      GenImageDataRGBAf_toInt32, GenImageDataRf_toInt32, withImage_ite,
      Bool.false_eq_true, if_false, if_true, Bool.or_false, Bool.or_true, Bool.not_true,
      Bool.not_false, Bool.false_or, Bool.true_or] <;>
    (try split_ifs) <;>
    simp [Static.GLTexImage1D, Static.GLTexImage2D, Static.GLTexImage3D,
      Static.GLTexImageCube, Static.GLTexImage1DArray, Static.GLTexImage2DArray,
      Static.GLTexImageCubeArray, GLTexImage1DBase, GLTexImage2DBase, GLTexImage3DBase,
      hds, hc, hen, GLState.call, callsMade, Outcome.state, Outcome.error, cubeFaces,
      ErrIllegalUseOfDepthFormat, raised_returned, raised_threw,
      GLCall.height?, GLCall.depth?] <;>
    exact h6

/-- Instance of C11, on the sample descriptor (2 layers) with a source image: the
call of `GLTexImageCubeArray` has depth 12. -/
theorem array_entry_points_single_call_witness :
    (GLTexImageCubeArray sampleExternals (sampleDesc sampleColorFormat) (some sampleImage)
      (sampleState true)).raised = false ∧
    ∃ c, callsMade (sampleState true)
        (GLTexImageCubeArray sampleExternals (sampleDesc sampleColorFormat)
          (some sampleImage) (sampleState true)) = [c] ∧
      c.depth? = some (toInt32 (u32 (2 * 6))) ∧
      (2 * 6 < 2 ^ 31 → c.depth? = some ((2 * 6 : Nat) : Int)) :=
  ⟨by decide,
    (array_entry_points_single_call sampleExternals (sampleDesc sampleColorFormat)
      (some sampleImage) (sampleState true)).2.2 (by decide)⟩

/-- C12: `GLTexImageCube` with a source image and a compressed format runs the
single-face helper six times, each time with `imageDesc.dataSize` itself as the
byte length, and so makes six `glCompressedTexImage2D` calls whose `imageSize` is
that same `dataSize` (as `GLsizei`) on every face, not a slice of it per face. -/
theorem texCube_compressed_same_face_size (X : Externals) (desc : TextureDescriptor)
    (img : ImageDescriptor) (s : GLState)
    (hcomp : IsCompressedFormat desc.format = true) :
    GLTexImageCube X desc (some img) s
      = Outcome.returned
        ([(0, AxisDirection.XPos), (1, AxisDirection.XNeg), (2, AxisDirection.YPos),
          (3, AxisDirection.YNeg), (4, AxisDirection.ZPos), (5, AxisDirection.ZNeg)].foldl
          (fun st p => Static.GLTexImageCube X desc.format
            desc.textureCube.width desc.textureCube.height p.2
            (X.MapImageFormat img.format) (X.MapDataType img.dataType)
            (DataPtr.addr (img.data + p.1 * u32 img.dataSize)) img.dataSize st) s) ∧
    callsMade s (GLTexImageCube X desc (some img) s)
      = [(0, AxisDirection.XPos), (1, AxisDirection.XNeg), (2, AxisDirection.YPos),
          (3, AxisDirection.YNeg), (4, AxisDirection.ZPos), (5, AxisDirection.ZNeg)].map
        (fun p => GLCall.glCompressedTexImage2D (X.MapAxisDirection p.2) 0
          (X.MapTextureFormat desc.format)
          (toInt32 desc.textureCube.width) (toInt32 desc.textureCube.height) 0
          (toInt32 img.dataSize) (DataPtr.addr (img.data + p.1 * u32 img.dataSize))) ∧
    (callsMade s (GLTexImageCube X desc (some img) s)).map GLCall.imageSize?
      = List.replicate 6 (some (toInt32 img.dataSize)) ∧
    (img.dataSize < 2 ^ 31 → toInt32 img.dataSize = (img.dataSize : Int)) := by
  generalize hk : u32 img.dataSize = k
  refine ⟨?_, ?_, ?_, fun h => toInt32_of_lt h⟩
  · simp only [GLTexImageCube, hcomp, hk, cubeFaces, List.foldl, if_true]
    simp [Static.GLTexImageCube, GLTexImage2DBase, hcomp, GLState.call]
    omega
  · simp only [GLTexImageCube, hcomp, hk, cubeFaces, List.foldl, Static.GLTexImageCube,
      GLTexImage2DBase, GLState.call, callsMade, Outcome.state, List.map, if_true]
    simp
    omega
  · simp [GLTexImageCube, hcomp, cubeFaces, Static.GLTexImageCube,
      GLTexImage2DBase, GLState.call, callsMade, Outcome.state, GLCall.imageSize?,
      List.replicate]

/-- Instance of C12, on the sample compressed descriptor and the sample image of
384 bytes: every face is declared 384 bytes long. -/
theorem texCube_compressed_same_face_size_witness :
    IsCompressedFormat (sampleDesc sampleCompressedFormat).format = true ∧
    sampleImage.dataSize = 384 ∧
    (callsMade (sampleState true)
      (GLTexImageCube sampleExternals (sampleDesc sampleCompressedFormat)
        (some sampleImage) (sampleState true))).map GLCall.imageSize?
      = [some 384, some 384, some 384, some 384, some 384, some 384] :=
  ⟨by decide, rfl,
    (texCube_compressed_same_face_size sampleExternals (sampleDesc sampleCompressedFormat)
      sampleImage (sampleState true) (by decide)).2.2.1⟩

/-- C13: `GLTexImage2DMS` and `GLTexImage2DMSArray` only reserve storage. For every
descriptor and state each returns after exactly one multisample call that carries
the sample count, format, width and height of the descriptor (and its layer count
as depth for the array variant) and the fixed-sample flag; the call has no data
argument, so no source and no generated buffer, and it is the same call whatever
the policy and the state. -/
theorem multisample_entry_points_reserve_only (X : Externals) (desc : TextureDescriptor)
    (s s' : GLState) :
    ((GLTexImage2DMS X desc s).raised = false ∧
      callsMade s (GLTexImage2DMS X desc s)
        = [GLCall.glTexImage2DMultisample GLenum.GL_TEXTURE_2D_MULTISAMPLE
            (toInt32 desc.texture2DMS.samples) (X.MapTextureFormat desc.format)
            (toInt32 desc.texture2DMS.width) (toInt32 desc.texture2DMS.height)
            desc.texture2DMS.fixedSamples] ∧
      (∀ c ∈ callsMade s (GLTexImage2DMS X desc s), c.data? = none) ∧
      callsMade s' (GLTexImage2DMS X desc s') = callsMade s (GLTexImage2DMS X desc s) ∧
      (GLTexImage2DMS X desc s).state.g_imageInitialization = s.g_imageInitialization) ∧
    ((GLTexImage2DMSArray X desc s).raised = false ∧
      callsMade s (GLTexImage2DMSArray X desc s)
        = [GLCall.glTexImage3DMultisample GLenum.GL_TEXTURE_2D_MULTISAMPLE_ARRAY
            (toInt32 desc.texture2DMS.samples) (X.MapTextureFormat desc.format)
            (toInt32 desc.texture2DMS.width) (toInt32 desc.texture2DMS.height)
            (toInt32 desc.texture2DMS.layers) desc.texture2DMS.fixedSamples] ∧
      (∀ c ∈ callsMade s (GLTexImage2DMSArray X desc s), c.data? = none) ∧
      callsMade s' (GLTexImage2DMSArray X desc s')
        = callsMade s (GLTexImage2DMSArray X desc s) ∧
      (GLTexImage2DMSArray X desc s).state.g_imageInitialization
        = s.g_imageInitialization) := by
  have h2 : ∀ t : GLState, callsMade t (GLTexImage2DMS X desc t)
      = [GLCall.glTexImage2DMultisample GLenum.GL_TEXTURE_2D_MULTISAMPLE
          (toInt32 desc.texture2DMS.samples) (X.MapTextureFormat desc.format)
          (toInt32 desc.texture2DMS.width) (toInt32 desc.texture2DMS.height)
          desc.texture2DMS.fixedSamples] := by
    intro t
    simp [GLTexImage2DMS, Static.GLTexImage2DMultisample, GLTexImage2DMultisampleBase,
      callsMade_call]
  have h3 : ∀ t : GLState, callsMade t (GLTexImage2DMSArray X desc t)
      = [GLCall.glTexImage3DMultisample GLenum.GL_TEXTURE_2D_MULTISAMPLE_ARRAY
          (toInt32 desc.texture2DMS.samples) (X.MapTextureFormat desc.format)
          (toInt32 desc.texture2DMS.width) (toInt32 desc.texture2DMS.height)
          (toInt32 desc.texture2DMS.layers) desc.texture2DMS.fixedSamples] := by
    intro t
    simp [GLTexImage2DMSArray, Static.GLTexImage2DMultisampleArray,
      GLTexImage3DMultisampleBase, callsMade_call]
  refine ⟨⟨rfl, h2 s, ?_, by rw [h2 s, h2 s'], rfl⟩, ⟨rfl, h3 s, ?_, by rw [h3 s, h3 s'], rfl⟩⟩
  · rw [h2 s]; simp [GLCall.data?]
  · rw [h3 s]; simp [GLCall.data?]

/-! ## Arguments of the upload path and of the storage-only path -/

/-- C14: on each entry point other than `GLTexImageCube`, a call with a source image
(for every format, so for every format that is not depth-stencil) returns after
running the helper of its shape exactly once, on the format and geometry of the
descriptor, the mapped format and data type of the image, the data pointer of the
image itself and its `dataSize`. The one OpenGL call this makes carries the data
pointer of the image at offset 0, the mapped format of the descriptor and its
geometry (the depth of the call of `GLTexImageCubeArray` is `layers * 6`), and, for
a compressed format, `dataSize` as its byte length (as `GLsizei`), otherwise the
mapped format and data type of the image. -/
theorem upload_path_single_call (X : Externals) (desc : TextureDescriptor)
    (img : ImageDescriptor) (s : GLState) :
    ((GLTexImage1D X desc (some img) s
        = Outcome.returned (Static.GLTexImage1D X desc.format
            desc.texture1D.width
            (X.MapImageFormat img.format) (X.MapDataType img.dataType)
            (DataPtr.addr img.data) img.dataSize s)) ∧
      callsMade s (GLTexImage1D X desc (some img) s)
        = [
          if IsCompressedFormat desc.format then
            GLCall.glCompressedTexImage1D GLenum.GL_TEXTURE_1D 0
              (X.MapTextureFormat desc.format)
              (toInt32 desc.texture1D.width) 0
              (toInt32 img.dataSize) (DataPtr.addr img.data)
          else
            GLCall.glTexImage1D GLenum.GL_TEXTURE_1D 0
              (X.MapTextureFormat desc.format)
              (toInt32 desc.texture1D.width) 0
              (X.MapImageFormat img.format) (X.MapDataType img.dataType) (DataPtr.addr img.data)]) ∧
    ((GLTexImage2D X desc (some img) s
        = Outcome.returned (Static.GLTexImage2D X desc.format
            desc.texture2D.width desc.texture2D.height
            (X.MapImageFormat img.format) (X.MapDataType img.dataType)
            (DataPtr.addr img.data) img.dataSize s)) ∧
      callsMade s (GLTexImage2D X desc (some img) s)
        = [
          if IsCompressedFormat desc.format then
            GLCall.glCompressedTexImage2D GLenum.GL_TEXTURE_2D 0
              (X.MapTextureFormat desc.format)
              (toInt32 desc.texture2D.width) (toInt32 desc.texture2D.height) 0
              (toInt32 img.dataSize) (DataPtr.addr img.data)
          else
            GLCall.glTexImage2D GLenum.GL_TEXTURE_2D 0
              (X.MapTextureFormat desc.format)
              (toInt32 desc.texture2D.width) (toInt32 desc.texture2D.height) 0
              (X.MapImageFormat img.format) (X.MapDataType img.dataType) (DataPtr.addr img.data)]) ∧
    ((GLTexImage3D X desc (some img) s
        = Outcome.returned (Static.GLTexImage3D X desc.format
            desc.texture3D.width desc.texture3D.height desc.texture3D.depth
            (X.MapImageFormat img.format) (X.MapDataType img.dataType)
            (DataPtr.addr img.data) img.dataSize s)) ∧
      callsMade s (GLTexImage3D X desc (some img) s)
        = [
          if IsCompressedFormat desc.format then
            GLCall.glCompressedTexImage3D GLenum.GL_TEXTURE_3D 0
              (X.MapTextureFormat desc.format)
              (toInt32 desc.texture3D.width) (toInt32 desc.texture3D.height)
              (toInt32 desc.texture3D.depth) 0
              (toInt32 img.dataSize) (DataPtr.addr img.data)
          else
            GLCall.glTexImage3D GLenum.GL_TEXTURE_3D 0
              (X.MapTextureFormat desc.format)
              (toInt32 desc.texture3D.width) (toInt32 desc.texture3D.height)
              (toInt32 desc.texture3D.depth) 0
              (X.MapImageFormat img.format) (X.MapDataType img.dataType) (DataPtr.addr img.data)]) ∧
    ((GLTexImage1DArray X desc (some img) s
        = Outcome.returned (Static.GLTexImage1DArray X desc.format
            desc.texture1D.width desc.texture1D.layers
            (X.MapImageFormat img.format) (X.MapDataType img.dataType)
            (DataPtr.addr img.data) img.dataSize s)) ∧
      callsMade s (GLTexImage1DArray X desc (some img) s)
        = [
          if IsCompressedFormat desc.format then
            GLCall.glCompressedTexImage2D GLenum.GL_TEXTURE_1D_ARRAY 0
              (X.MapTextureFormat desc.format)
              (toInt32 desc.texture1D.width) (toInt32 desc.texture1D.layers) 0
              (toInt32 img.dataSize) (DataPtr.addr img.data)
          else
            GLCall.glTexImage2D GLenum.GL_TEXTURE_1D_ARRAY 0
              (X.MapTextureFormat desc.format)
              (toInt32 desc.texture1D.width) (toInt32 desc.texture1D.layers) 0
              (X.MapImageFormat img.format) (X.MapDataType img.dataType) (DataPtr.addr img.data)]) ∧
    ((GLTexImage2DArray X desc (some img) s
        = Outcome.returned (Static.GLTexImage2DArray X desc.format
            desc.texture2D.width desc.texture2D.height desc.texture2D.layers
            (X.MapImageFormat img.format) (X.MapDataType img.dataType)
            (DataPtr.addr img.data) img.dataSize s)) ∧
      callsMade s (GLTexImage2DArray X desc (some img) s)
        = [
          if IsCompressedFormat desc.format then
            GLCall.glCompressedTexImage3D GLenum.GL_TEXTURE_2D_ARRAY 0
              (X.MapTextureFormat desc.format)
              (toInt32 desc.texture2D.width) (toInt32 desc.texture2D.height)
              (toInt32 desc.texture2D.layers) 0
              (toInt32 img.dataSize) (DataPtr.addr img.data)
          else
            GLCall.glTexImage3D GLenum.GL_TEXTURE_2D_ARRAY 0
              (X.MapTextureFormat desc.format)
              (toInt32 desc.texture2D.width) (toInt32 desc.texture2D.height)
              (toInt32 desc.texture2D.layers) 0
              (X.MapImageFormat img.format) (X.MapDataType img.dataType) (DataPtr.addr img.data)]) ∧
    ((GLTexImageCubeArray X desc (some img) s
        = Outcome.returned (Static.GLTexImageCubeArray X desc.format
            desc.textureCube.width desc.textureCube.height desc.textureCube.layers
            (X.MapImageFormat img.format) (X.MapDataType img.dataType)
            (DataPtr.addr img.data) img.dataSize s)) ∧
      callsMade s (GLTexImageCubeArray X desc (some img) s)
        = [
          if IsCompressedFormat desc.format then
            GLCall.glCompressedTexImage3D GLenum.GL_TEXTURE_CUBE_MAP_ARRAY 0
              (X.MapTextureFormat desc.format)
              (toInt32 desc.textureCube.width) (toInt32 desc.textureCube.height) (toInt32 (u32
              (desc.textureCube.layers * 6))) 0
              (toInt32 img.dataSize) (DataPtr.addr img.data)
          else
            GLCall.glTexImage3D GLenum.GL_TEXTURE_CUBE_MAP_ARRAY 0
              (X.MapTextureFormat desc.format)
              (toInt32 desc.textureCube.width) (toInt32 desc.textureCube.height) (toInt32 (u32
              (desc.textureCube.layers * 6))) 0
              (X.MapImageFormat img.format) (X.MapDataType img.dataType)
              (DataPtr.addr img.data)]) := by
  refine ⟨⟨rfl, ?_⟩, ⟨rfl, ?_⟩, ⟨rfl, ?_⟩, ⟨rfl, ?_⟩, ⟨rfl, ?_⟩, ⟨rfl, ?_⟩⟩ <;>
    cases hc : IsCompressedFormat desc.format <;>
    simp [GLTexImage1D, GLTexImage2D, GLTexImage3D, GLTexImage1DArray, GLTexImage2DArray,
      GLTexImageCubeArray, Static.GLTexImage1D, Static.GLTexImage2D, Static.GLTexImage3D,
      Static.GLTexImage1DArray, Static.GLTexImage2DArray, Static.GLTexImageCubeArray,
      GLTexImage1DBase, GLTexImage2DBase, GLTexImage3DBase, hc, callsMade_call]

/-- C20: with no source image, a format that is not depth-stencil, and a compressed
format or a disabled policy, each entry point returns after running the helper of
its shape (once; once per face for `GLTexImageCube`) on the format and geometry of
the descriptor unchanged, `GL_RGBA`, `GL_UNSIGNED_BYTE`, a null data pointer and the
byte length 0. Every OpenGL call this makes carries the mapped format of the
descriptor, its geometry (the depth of the call of `GLTexImageCubeArray` is
`layers * 6`), a null data pointer and, for a compressed format, the byte length 0,
otherwise `GL_RGBA` / `GL_UNSIGNED_BYTE`. -/
theorem storage_only_path_arguments (X : Externals) (desc : TextureDescriptor)
    (s : GLState)
    (hnd : IsDepthStencilFormat desc.format = false)
    (hst : IsCompressedFormat desc.format = true ∨
      s.g_imageInitialization.enabled = false) :
    ((GLTexImage1D X desc none s
        = Outcome.returned (Static.GLTexImage1D X desc.format
            desc.texture1D.width
            GLenum.GL_RGBA GLenum.GL_UNSIGNED_BYTE DataPtr.nullptr 0 s)) ∧
      callsMade s (GLTexImage1D X desc none s)
        = [
          if IsCompressedFormat desc.format then
            GLCall.glCompressedTexImage1D GLenum.GL_TEXTURE_1D 0
              (X.MapTextureFormat desc.format)
              (toInt32 desc.texture1D.width) 0
              0 DataPtr.nullptr
          else
            GLCall.glTexImage1D GLenum.GL_TEXTURE_1D 0
              (X.MapTextureFormat desc.format)
              (toInt32 desc.texture1D.width) 0
              GLenum.GL_RGBA GLenum.GL_UNSIGNED_BYTE DataPtr.nullptr]) ∧
    ((GLTexImage2D X desc none s
        = Outcome.returned (Static.GLTexImage2D X desc.format
            desc.texture2D.width desc.texture2D.height
            GLenum.GL_RGBA GLenum.GL_UNSIGNED_BYTE DataPtr.nullptr 0 s)) ∧
      callsMade s (GLTexImage2D X desc none s)
        = [
          if IsCompressedFormat desc.format then
            GLCall.glCompressedTexImage2D GLenum.GL_TEXTURE_2D 0
              (X.MapTextureFormat desc.format)
              (toInt32 desc.texture2D.width) (toInt32 desc.texture2D.height) 0
              0 DataPtr.nullptr
          else
            GLCall.glTexImage2D GLenum.GL_TEXTURE_2D 0
              (X.MapTextureFormat desc.format)
              (toInt32 desc.texture2D.width) (toInt32 desc.texture2D.height) 0
              GLenum.GL_RGBA GLenum.GL_UNSIGNED_BYTE DataPtr.nullptr]) ∧
    ((GLTexImage3D X desc none s
        = Outcome.returned (Static.GLTexImage3D X desc.format
            desc.texture3D.width desc.texture3D.height desc.texture3D.depth
            GLenum.GL_RGBA GLenum.GL_UNSIGNED_BYTE DataPtr.nullptr 0 s)) ∧
      callsMade s (GLTexImage3D X desc none s)
        = [
          if IsCompressedFormat desc.format then
            GLCall.glCompressedTexImage3D GLenum.GL_TEXTURE_3D 0
              (X.MapTextureFormat desc.format)
              (toInt32 desc.texture3D.width) (toInt32 desc.texture3D.height)
              (toInt32 desc.texture3D.depth) 0
              0 DataPtr.nullptr
          else
            GLCall.glTexImage3D GLenum.GL_TEXTURE_3D 0
              (X.MapTextureFormat desc.format)
              (toInt32 desc.texture3D.width) (toInt32 desc.texture3D.height)
              (toInt32 desc.texture3D.depth) 0
              GLenum.GL_RGBA GLenum.GL_UNSIGNED_BYTE DataPtr.nullptr]) ∧
    ((GLTexImageCube X desc none s
        = Outcome.returned (cubeFaces.foldl
            (fun st face => Static.GLTexImageCube X desc.format
              desc.textureCube.width desc.textureCube.height face
              GLenum.GL_RGBA GLenum.GL_UNSIGNED_BYTE DataPtr.nullptr 0 st) s)) ∧
      callsMade s (GLTexImageCube X desc none s)
        = cubeFaces.map (fun face =>
          if IsCompressedFormat desc.format then
            GLCall.glCompressedTexImage2D (X.MapAxisDirection face) 0
              (X.MapTextureFormat desc.format)
              (toInt32 desc.textureCube.width) (toInt32 desc.textureCube.height) 0
              0 DataPtr.nullptr
          else
            GLCall.glTexImage2D (X.MapAxisDirection face) 0
              (X.MapTextureFormat desc.format)
              (toInt32 desc.textureCube.width) (toInt32 desc.textureCube.height) 0
              GLenum.GL_RGBA GLenum.GL_UNSIGNED_BYTE DataPtr.nullptr)) ∧
    ((GLTexImage1DArray X desc none s
        = Outcome.returned (Static.GLTexImage1DArray X desc.format
            desc.texture1D.width desc.texture1D.layers
            GLenum.GL_RGBA GLenum.GL_UNSIGNED_BYTE DataPtr.nullptr 0 s)) ∧
      callsMade s (GLTexImage1DArray X desc none s)
        = [
          if IsCompressedFormat desc.format then
            GLCall.glCompressedTexImage2D GLenum.GL_TEXTURE_1D_ARRAY 0
              (X.MapTextureFormat desc.format)
              (toInt32 desc.texture1D.width) (toInt32 desc.texture1D.layers) 0
              0 DataPtr.nullptr
          else
            GLCall.glTexImage2D GLenum.GL_TEXTURE_1D_ARRAY 0
              (X.MapTextureFormat desc.format)
              (toInt32 desc.texture1D.width) (toInt32 desc.texture1D.layers) 0
              GLenum.GL_RGBA GLenum.GL_UNSIGNED_BYTE DataPtr.nullptr]) ∧
    ((GLTexImage2DArray X desc none s
        = Outcome.returned (Static.GLTexImage2DArray X desc.format
            desc.texture2D.width desc.texture2D.height desc.texture2D.layers
            GLenum.GL_RGBA GLenum.GL_UNSIGNED_BYTE DataPtr.nullptr 0 s)) ∧
      callsMade s (GLTexImage2DArray X desc none s)
        = [
          if IsCompressedFormat desc.format then
            GLCall.glCompressedTexImage3D GLenum.GL_TEXTURE_2D_ARRAY 0
              (X.MapTextureFormat desc.format)
              (toInt32 desc.texture2D.width) (toInt32 desc.texture2D.height)
              (toInt32 desc.texture2D.layers) 0
              0 DataPtr.nullptr
          else
            GLCall.glTexImage3D GLenum.GL_TEXTURE_2D_ARRAY 0
              (X.MapTextureFormat desc.format)
              (toInt32 desc.texture2D.width) (toInt32 desc.texture2D.height)
              (toInt32 desc.texture2D.layers) 0
              GLenum.GL_RGBA GLenum.GL_UNSIGNED_BYTE DataPtr.nullptr]) ∧
    ((GLTexImageCubeArray X desc none s
        = Outcome.returned (Static.GLTexImageCubeArray X desc.format
            desc.textureCube.width desc.textureCube.height desc.textureCube.layers
            GLenum.GL_RGBA GLenum.GL_UNSIGNED_BYTE DataPtr.nullptr 0 s)) ∧
      callsMade s (GLTexImageCubeArray X desc none s)
        = [
          if IsCompressedFormat desc.format then
            GLCall.glCompressedTexImage3D GLenum.GL_TEXTURE_CUBE_MAP_ARRAY 0
              (X.MapTextureFormat desc.format)
              (toInt32 desc.textureCube.width) (toInt32 desc.textureCube.height) (toInt32 (u32
              (desc.textureCube.layers * 6))) 0
              0 DataPtr.nullptr
          else
            GLCall.glTexImage3D GLenum.GL_TEXTURE_CUBE_MAP_ARRAY 0
              (X.MapTextureFormat desc.format)
              (toInt32 desc.textureCube.width) (toInt32 desc.textureCube.height) (toInt32 (u32
              (desc.textureCube.layers * 6))) 0
              GLenum.GL_RGBA GLenum.GL_UNSIGNED_BYTE DataPtr.nullptr]) := by
  have h0 : toInt32 0 = 0 := by decide
  have hbr : (IsCompressedFormat desc.format || !s.g_imageInitialization.enabled) = true := by
    rcases hst with h | h <;> simp [h]
  refine ⟨⟨?_, ?_⟩, ⟨?_, ?_⟩, ⟨?_, ?_⟩, ⟨?_, ?_⟩, ⟨?_, ?_⟩, ⟨?_, ?_⟩, ⟨?_, ?_⟩⟩ <;>
    cases hc : IsCompressedFormat desc.format <;>
    simp only [hc] at hbr <;>
    simp [GLTexImage1D, GLTexImage2D, GLTexImage3D, GLTexImageCube, GLTexImage1DArray,
      GLTexImage2DArray, GLTexImageCubeArray, Static.GLTexImage1D, Static.GLTexImage2D,
      Static.GLTexImage3D, Static.GLTexImageCube, Static.GLTexImage1DArray,
      Static.GLTexImage2DArray, Static.GLTexImageCubeArray,
      GLTexImage1DBase, GLTexImage2DBase, GLTexImage3DBase, hnd, hc, hbr, h0,
      callsMade_call, GLState.call, callsMade, Outcome.state, cubeFaces]

/-- Instance of C20, on the sample compressed descriptor with the policy enabled:
`GLTexImage1D` makes one `glCompressedTexImage1D` call of byte length 0 on a null
pointer. -/
theorem storage_only_path_arguments_witness :
    IsDepthStencilFormat (sampleDesc sampleCompressedFormat).format = false ∧
    IsCompressedFormat (sampleDesc sampleCompressedFormat).format = true ∧
    callsMade (sampleState true)
      (GLTexImage1D sampleExternals (sampleDesc sampleCompressedFormat) none
        (sampleState true))
      = [GLCall.glCompressedTexImage1D GLenum.GL_TEXTURE_1D 0 (GLenum.value 40) 4 0 0
          DataPtr.nullptr] :=
  ⟨by decide, by decide,
    (storage_only_path_arguments sampleExternals (sampleDesc sampleCompressedFormat)
      (sampleState true) (by decide) (Or.inl (by decide))).1.2⟩

/-! ## Call counts, determinism and the policy -/

/-- The outcome of an entry point depends on the state through the policy only:
from two states with the same policy it raises the same error or makes the same
calls. -/
theorem invoke_depends_on_policy_only (X : Externals) (e : EntryPoint)
    (desc : TextureDescriptor) (imageDesc : Option ImageDescriptor) (s s' : GLState)
    (h : s.g_imageInitialization = s'.g_imageInitialization) :
    (e.invoke X desc imageDesc s).error = (e.invoke X desc imageDesc s').error ∧
    callsMade s (e.invoke X desc imageDesc s)
      = callsMade s' (e.invoke X desc imageDesc s') := by
  cases imageDesc <;>
    cases hds : IsDepthStencilFormat desc.format <;>
    cases hc : IsCompressedFormat desc.format <;>
    cases hen : s'.g_imageInitialization.enabled <;>
    cases e <;>
    simp only [h, EntryPoint.invoke, GLTexImage1D, GLTexImage2D, GLTexImage3D, GLTexImageCube,
      GLTexImage1DArray, GLTexImage2DArray, GLTexImageCubeArray, hds, hc, hen,
      GenImageDataRGBAf_toInt32, GenImageDataRf_toInt32, withImage_ite,
      Bool.false_eq_true, if_false, if_true, Bool.or_false, Bool.or_true, Bool.not_true,
      Bool.not_false, Bool.false_or, Bool.true_or] <;>
    (try split_ifs) <;>
    simp [h, Static.GLTexImage1D, Static.GLTexImage2D, Static.GLTexImage3D,
      Static.GLTexImageCube, Static.GLTexImage1DArray, Static.GLTexImage2DArray,
      Static.GLTexImageCubeArray, GLTexImage1DBase, GLTexImage2DBase, GLTexImage3DBase,
      hds, hc, hen, GLState.call, callsMade, Outcome.state, Outcome.error, cubeFaces,
      ErrIllegalUseOfDepthFormat, raised_returned, raised_threw]

/-- C15: an invocation that returns without error has made exactly six calls on
`GLTexImageCube` and exactly one call on each of the eight other entry points, the
cube-array and the two multisample entry points included. -/
theorem call_count_one_or_six (X : Externals) (e : EntryPoint)
    (desc : TextureDescriptor) (imageDesc : Option ImageDescriptor) (s : GLState) :
    ((e.invoke X desc imageDesc s).raised = false →
      (callsMade s (e.invoke X desc imageDesc s)).length
        = if e = EntryPoint.texCube then 6 else 1) ∧
    ((GLTexImage2DMS X desc s).raised = false ∧
      (callsMade s (GLTexImage2DMS X desc s)).length = 1) ∧
    ((GLTexImage2DMSArray X desc s).raised = false ∧
      (callsMade s (GLTexImage2DMSArray X desc s)).length = 1) := by
  refine ⟨?_, ⟨rfl, ?_⟩, ⟨rfl, ?_⟩⟩
  · cases imageDesc <;>
      cases hds : IsDepthStencilFormat desc.format <;>
      cases hc : IsCompressedFormat desc.format <;>
      cases hen : s.g_imageInitialization.enabled <;>
      cases e <;>
      simp only [EntryPoint.invoke, GLTexImage1D, GLTexImage2D, GLTexImage3D, GLTexImageCube,
      GLTexImage1DArray, GLTexImage2DArray, GLTexImageCubeArray, hds, hc, hen,
      GenImageDataRGBAf_toInt32, GenImageDataRf_toInt32, withImage_ite,
      Bool.false_eq_true, if_false, if_true, Bool.or_false, Bool.or_true, Bool.not_true,
      Bool.not_false, Bool.false_or, Bool.true_or] <;>
      (try split_ifs) <;>
      simp [Static.GLTexImage1D, Static.GLTexImage2D, Static.GLTexImage3D,
      Static.GLTexImageCube, Static.GLTexImage1DArray, Static.GLTexImage2DArray,
      Static.GLTexImageCubeArray, GLTexImage1DBase, GLTexImage2DBase, GLTexImage3DBase,
      hds, hc, hen, GLState.call, callsMade, Outcome.state, Outcome.error, cubeFaces,
      ErrIllegalUseOfDepthFormat, raised_returned, raised_threw] <;>
      contradiction
  · simp [GLTexImage2DMS, Static.GLTexImage2DMultisample, GLTexImage2DMultisampleBase,
      callsMade_call]
  · simp [GLTexImage2DMSArray, Static.GLTexImage2DMultisampleArray,
      GLTexImage3DMultisampleBase, callsMade_call]

/-- Instance of C15, on `GLTexImageCube` and on `GLTexImageCubeArray` with the
sample plain-color descriptor and the policy enabled: six calls, and one call. -/
theorem call_count_one_or_six_witness :
    ((EntryPoint.texCube.invoke sampleExternals (sampleDesc sampleColorFormat) none
      (sampleState true)).raised = false ∧
      (callsMade (sampleState true)
        (EntryPoint.texCube.invoke sampleExternals (sampleDesc sampleColorFormat) none
          (sampleState true))).length = 6) ∧
    ((EntryPoint.texCubeArray.invoke sampleExternals (sampleDesc sampleColorFormat) none
      (sampleState true)).raised = false ∧
      (callsMade (sampleState true)
        (EntryPoint.texCubeArray.invoke sampleExternals (sampleDesc sampleColorFormat) none
          (sampleState true))).length = 1) :=
  ⟨⟨by decide,
      (call_count_one_or_six sampleExternals EntryPoint.texCube
        (sampleDesc sampleColorFormat) none (sampleState true)).1 (by decide)⟩,
    ⟨by decide,
      (call_count_one_or_six sampleExternals EntryPoint.texCubeArray
        (sampleDesc sampleColorFormat) none (sampleState true)).1 (by decide)⟩⟩

/-- C16: no entry point changes `g_imageInitialization`, and an entry point invoked
a second time, on the state the first invocation ended in, has the outcome of the
first invocation: the same error, or the same calls with the same arguments in the
same order, generated buffers included. -/
theorem invoke_twice_same_outcome (X : Externals) (e : EntryPoint)
    (desc : TextureDescriptor) (imageDesc : Option ImageDescriptor) (s : GLState) :
    ((e.invoke X desc imageDesc s).state.g_imageInitialization = s.g_imageInitialization ∧
      (e.invoke X desc imageDesc (e.invoke X desc imageDesc s).state).error
        = (e.invoke X desc imageDesc s).error ∧
      callsMade (e.invoke X desc imageDesc s).state
          (e.invoke X desc imageDesc (e.invoke X desc imageDesc s).state)
        = callsMade s (e.invoke X desc imageDesc s)) ∧
    ((GLTexImage2DMS X desc s).state.g_imageInitialization = s.g_imageInitialization ∧
      (GLTexImage2DMS X desc (GLTexImage2DMS X desc s).state).error
        = (GLTexImage2DMS X desc s).error ∧
      callsMade (GLTexImage2DMS X desc s).state
          (GLTexImage2DMS X desc (GLTexImage2DMS X desc s).state)
        = callsMade s (GLTexImage2DMS X desc s)) ∧
    ((GLTexImage2DMSArray X desc s).state.g_imageInitialization
        = s.g_imageInitialization ∧
      (GLTexImage2DMSArray X desc (GLTexImage2DMSArray X desc s).state).error
        = (GLTexImage2DMSArray X desc s).error ∧
      callsMade (GLTexImage2DMSArray X desc s).state
          (GLTexImage2DMSArray X desc (GLTexImage2DMSArray X desc s).state)
        = callsMade s (GLTexImage2DMSArray X desc s)) := by
  have hg : (e.invoke X desc imageDesc s).state.g_imageInitialization
      = s.g_imageInitialization := by
    rw [invoke_state]
  refine ⟨⟨hg, ?_, ?_⟩, ⟨rfl, rfl, ?_⟩, ⟨rfl, rfl, ?_⟩⟩
  · exact (invoke_depends_on_policy_only X e desc imageDesc _ s hg).1
  · exact (invoke_depends_on_policy_only X e desc imageDesc _ s hg).2
  · simp [GLTexImage2DMS, Static.GLTexImage2DMultisample, GLTexImage2DMultisampleBase,
      callsMade, Outcome.state, GLState.call]
  · simp [GLTexImage2DMSArray, Static.GLTexImage2DMultisampleArray,
      GLTexImage3DMultisampleBase, callsMade, Outcome.state, GLState.call]

/-- C17: `GLTexImageInitialization p` stores `p` as the policy, in every field,
whatever the policy was before, and leaves the call log alone; what an entry point
does afterwards is the same from any two earlier states, so it depends on `p`
only. -/
theorem GLTexImageInitialization_replaces_policy (p : ImageInitialization)
    (s s' : GLState) (X : Externals) (e : EntryPoint) (desc : TextureDescriptor)
    (imageDesc : Option ImageDescriptor) :
    (GLTexImageInitialization p s).g_imageInitialization = p ∧
    (GLTexImageInitialization p s).g_imageInitialization.enabled = p.enabled ∧
    (GLTexImageInitialization p s).g_imageInitialization.clearValue.color
      = p.clearValue.color ∧
    (GLTexImageInitialization p s).g_imageInitialization.clearValue.depth
      = p.clearValue.depth ∧
    (GLTexImageInitialization p s).calls = s.calls ∧
    (e.invoke X desc imageDesc (GLTexImageInitialization p s)).error
      = (e.invoke X desc imageDesc (GLTexImageInitialization p s')).error ∧
    callsMade (GLTexImageInitialization p s)
        (e.invoke X desc imageDesc (GLTexImageInitialization p s))
      = callsMade (GLTexImageInitialization p s')
        (e.invoke X desc imageDesc (GLTexImageInitialization p s')) :=
  ⟨rfl, rfl, rfl, rfl, rfl,
    (invoke_depends_on_policy_only X e desc imageDesc (GLTexImageInitialization p s)
      (GLTexImageInitialization p s') rfl).1,
    (invoke_depends_on_policy_only X e desc imageDesc (GLTexImageInitialization p s)
      (GLTexImageInitialization p s') rfl).2⟩

/-- C18 fails here: the error `GLTexImage1D` raises on a depth-stencil descriptor
without a source image carries the text "illegal use of depth-stencil format for
texture", not the text of the claim. -/
theorem error_text_tex1D :
    (EntryPoint.tex1D.invoke sampleExternals (sampleDesc sampleDepthFormat) none
      (sampleState true)).error
      = some (Exception.runtime_error "illegal use of depth-stencil format for texture") ∧
    "illegal use of depth-stencil format for texture"
      ≠ "illegal use of depth-stencil format with explicit source image" := by
  decide

/-- C18 (as amended): whenever an entry point raises its error, the
`std::runtime_error` of `ErrIllegalUseOfDepthFormat`, the text of the error is exactly
"illegal use of depth-stencil format for texture". This error is raised on every
depth-stencil format without a source image, except by `GLTexImage2D` and
`GLTexImage2DArray`. The only other exception an entry point ends with is the
`std::length_error` of the constructor of the fill buffer, whose text is chosen by
the library. -/
theorem error_text (X : Externals) (e : EntryPoint) (desc : TextureDescriptor)
    (imageDesc : Option ImageDescriptor) (s : GLState) :
    (∀ what : String,
      (e.invoke X desc imageDesc s).error = some (Exception.runtime_error what) →
      what = "illegal use of depth-stencil format for texture") ∧
    (∀ err : Exception, (e.invoke X desc imageDesc s).error = some err →
      err = Exception.runtime_error "illegal use of depth-stencil format for texture" ∨
      err = Exception.length_error) ∧
    (imageDesc = none → IsDepthStencilFormat desc.format = true →
      e ≠ EntryPoint.tex2D → e ≠ EntryPoint.tex2DArray →
      (e.invoke X desc imageDesc s).error
        = some (Exception.runtime_error
            "illegal use of depth-stencil format for texture")) := by
  have hall : ∀ err : Exception, (e.invoke X desc imageDesc s).error = some err →
      err = Exception.runtime_error "illegal use of depth-stencil format for texture" ∨
      err = Exception.length_error := by
    intro err h
    cases imageDesc with
    | some img => rw [invoke_some_error] at h; exact absurd h (by simp)
    | none =>
      rw [invoke_none_error] at h
      split_ifs at h
      · exact Or.inl (Option.some.inj h).symm
      · exact Or.inr (Option.some.inj h).symm
  refine ⟨?_, hall, ?_⟩
  · intro what h
    rcases hall _ h with h1 | h1
    · exact Exception.runtime_error.inj h1
    · exact absurd h1 (by simp)
  · intro hn hds h2 h2a
    subst hn
    rw [invoke_none_error, if_pos ⟨hds, h2, h2a⟩]
    rfl

/-- Instance of C18, on `GLTexImageCube` with the sample depth-stencil descriptor and
no source image. -/
theorem error_text_witness :
    (EntryPoint.texCube.invoke sampleExternals (sampleDesc sampleDepthFormat) none
        (sampleState false)).error
      = some (Exception.runtime_error
          "illegal use of depth-stencil format for texture") ∧
    "illegal use of depth-stencil format for texture"
      = "illegal use of depth-stencil format for texture" :=
  ⟨by decide,
    (error_text sampleExternals EntryPoint.texCube (sampleDesc sampleDepthFormat) none
      (sampleState false)).1 "illegal use of depth-stencil format for texture" (by decide)⟩

/-! ## Size of the generated color buffer, shape by shape -/

/-- C19: on a plain-color format, with the policy enabled and no source image, each
entry point uploads with `GL_RGBA` / `GL_FLOAT` a generated buffer whose elements
all equal the clear color. When the product is below `2^31` the buffer has `width`
elements for 1D, `width * height` for 2D, `width * height * depth` for 3D,
`width * layers` for 1D-array, `width * height * layers` for 2D-array,
`width * height * layers * 6` for cube-array, and `width * height` for the cube,
where the same buffer is passed to each of the six face calls. -/
theorem default_color_fill_sizes (X : Externals) (desc : TextureDescriptor) (s : GLState)
    (hnd : IsDepthStencilFormat desc.format = false)
    (hnc : IsCompressedFormat desc.format = false)
    (hen : s.g_imageInitialization.enabled = true) :
    (desc.texture1D.width < 2 ^ 31 →
      callsMade s (GLTexImage1D X desc none s)
        = [GLCall.glTexImage1D GLenum.GL_TEXTURE_1D 0 (X.MapTextureFormat desc.format)
            (toInt32 desc.texture1D.width) 0 GLenum.GL_RGBA GLenum.GL_FLOAT
            (DataPtr.rgbaf (List.replicate desc.texture1D.width
              s.g_imageInitialization.clearValue.color))]) ∧
    (desc.texture2D.width * desc.texture2D.height < 2 ^ 31 →
      callsMade s (GLTexImage2D X desc none s)
        = [GLCall.glTexImage2D GLenum.GL_TEXTURE_2D 0 (X.MapTextureFormat desc.format)
            (toInt32 desc.texture2D.width) (toInt32 desc.texture2D.height) 0
            GLenum.GL_RGBA GLenum.GL_FLOAT
            (DataPtr.rgbaf (List.replicate (desc.texture2D.width * desc.texture2D.height)
              s.g_imageInitialization.clearValue.color))]) ∧
    (desc.texture3D.width * desc.texture3D.height * desc.texture3D.depth < 2 ^ 31 →
      callsMade s (GLTexImage3D X desc none s)
        = [GLCall.glTexImage3D GLenum.GL_TEXTURE_3D 0 (X.MapTextureFormat desc.format)
            (toInt32 desc.texture3D.width) (toInt32 desc.texture3D.height)
            (toInt32 desc.texture3D.depth) 0 GLenum.GL_RGBA GLenum.GL_FLOAT
            (DataPtr.rgbaf (List.replicate
              (desc.texture3D.width * desc.texture3D.height * desc.texture3D.depth)
              s.g_imageInitialization.clearValue.color))]) ∧
    (desc.texture1D.width * desc.texture1D.layers < 2 ^ 31 →
      callsMade s (GLTexImage1DArray X desc none s)
        = [GLCall.glTexImage2D GLenum.GL_TEXTURE_1D_ARRAY 0
            (X.MapTextureFormat desc.format)
            (toInt32 desc.texture1D.width) (toInt32 desc.texture1D.layers) 0
            GLenum.GL_RGBA GLenum.GL_FLOAT
            (DataPtr.rgbaf (List.replicate (desc.texture1D.width * desc.texture1D.layers)
              s.g_imageInitialization.clearValue.color))]) ∧
    (desc.texture2D.width * desc.texture2D.height * desc.texture2D.layers < 2 ^ 31 →
      callsMade s (GLTexImage2DArray X desc none s)
        = [GLCall.glTexImage3D GLenum.GL_TEXTURE_2D_ARRAY 0
            (X.MapTextureFormat desc.format)
            (toInt32 desc.texture2D.width) (toInt32 desc.texture2D.height)
            (toInt32 desc.texture2D.layers) 0 GLenum.GL_RGBA GLenum.GL_FLOAT
            (DataPtr.rgbaf (List.replicate
              (desc.texture2D.width * desc.texture2D.height * desc.texture2D.layers)
              s.g_imageInitialization.clearValue.color))]) ∧
    (desc.textureCube.width * desc.textureCube.height * desc.textureCube.layers * 6
        < 2 ^ 31 →
      callsMade s (GLTexImageCubeArray X desc none s)
        = [GLCall.glTexImage3D GLenum.GL_TEXTURE_CUBE_MAP_ARRAY 0
            (X.MapTextureFormat desc.format)
            (toInt32 desc.textureCube.width) (toInt32 desc.textureCube.height)
            (toInt32 (u32 (desc.textureCube.layers * 6))) 0
            GLenum.GL_RGBA GLenum.GL_FLOAT
            (DataPtr.rgbaf (List.replicate
              (desc.textureCube.width * desc.textureCube.height
                * desc.textureCube.layers * 6)
              s.g_imageInitialization.clearValue.color))]) ∧
    (desc.textureCube.width * desc.textureCube.height < 2 ^ 31 →
      callsMade s (GLTexImageCube X desc none s)
        = cubeFaces.map (fun face =>
            GLCall.glTexImage2D (X.MapAxisDirection face) 0
              (X.MapTextureFormat desc.format)
              (toInt32 desc.textureCube.width) (toInt32 desc.textureCube.height) 0
              GLenum.GL_RGBA GLenum.GL_FLOAT
              (DataPtr.rgbaf (List.replicate
                (desc.textureCube.width * desc.textureCube.height)
                s.g_imageInitialization.clearValue.color)))) := by
  refine ⟨?_, ?_, ?_, ?_, ?_, ?_, ?_⟩
  · intro hlt
    have hg := GenImageDataRGBAf_of_lt
      (n := desc.texture1D.width)
      (mod_eq_of_lt31 hlt) hlt
      s.g_imageInitialization.clearValue.color
    simp [GLTexImage1D, Static.GLTexImage1D, GLTexImage1DBase, hnd, hnc, hen, hg, withImage_ok, callsMade_call]
  · intro hlt
    have hg := GenImageDataRGBAf_of_lt
      (n := u32 (desc.texture2D.width * desc.texture2D.height))
      (by rw [u32_mod]; exact mod_eq_of_lt31 hlt) hlt
      s.g_imageInitialization.clearValue.color
    simp [GLTexImage2D, Static.GLTexImage2D, GLTexImage2DBase, hnd, hnc, hen, hg, withImage_ok, callsMade_call]
  · intro hlt
    have hg := GenImageDataRGBAf_of_lt
      (n := u32 (u32 (desc.texture3D.width * desc.texture3D.height) * desc.texture3D.depth))
      (by rw [u32_mod, fillArg_tex3D]; exact mod_eq_of_lt31 hlt) hlt
      s.g_imageInitialization.clearValue.color
    simp [GLTexImage3D, Static.GLTexImage3D, GLTexImage3DBase, hnd, hnc, hen, hg, withImage_ok, callsMade_call]
  · intro hlt
    have hg := GenImageDataRGBAf_of_lt
      (n := u32 (desc.texture1D.width * intToU32 (toInt32 desc.texture1D.layers)))
      (by rw [u32_mod, fillArg_tex1DArray]; exact mod_eq_of_lt31 hlt) hlt
      s.g_imageInitialization.clearValue.color
    simp [GLTexImage1DArray, Static.GLTexImage1DArray, GLTexImage2DBase, hnd, hnc, hen, hg, withImage_ok, callsMade_call]
  · intro hlt
    have hg := GenImageDataRGBAf_of_lt
      (n := u32 (u32 (desc.texture2D.width * desc.texture2D.height)
        * intToU32 (toInt32 desc.texture2D.layers)))
      (by rw [u32_mod, fillArg_tex2DArray]; exact mod_eq_of_lt31 hlt) hlt
      s.g_imageInitialization.clearValue.color
    simp [GLTexImage2DArray, Static.GLTexImage2DArray, GLTexImage3DBase, hnd, hnc, hen, hg, withImage_ok, callsMade_call]
  · intro hlt
    have hg := GenImageDataRGBAf_of_lt
      (n := u32 (u32 (desc.textureCube.width * desc.textureCube.height)
        * intToU32 (toInt32 (u32 (desc.textureCube.layers * 6)))))
      (by rw [u32_mod, fillArg_texCubeArray, ← Nat.mul_assoc]; exact mod_eq_of_lt31 hlt) hlt
      s.g_imageInitialization.clearValue.color
    simp [GLTexImageCubeArray, Static.GLTexImageCubeArray, GLTexImage3DBase, hnd, hnc, hen, hg, withImage_ok, callsMade_call]
  · intro hlt
    have hg := GenImageDataRGBAf_of_lt
      (n := u32 (desc.textureCube.width * desc.textureCube.height))
      (by rw [u32_mod]; exact mod_eq_of_lt31 hlt) hlt
      s.g_imageInitialization.clearValue.color
    simp [GLTexImageCube, hnd, hnc, hen, hg, withImage_ok, Static.GLTexImageCube,
      GLTexImage2DBase, GLState.call, callsMade, Outcome.state, cubeFaces]

/-- Instance of C19, on the sample plain-color descriptor (cube 4 by 4, 2 layers):
the cube-array buffer has 192 elements, and the six face calls of the cube all
carry one buffer of 16 elements. -/
theorem default_color_fill_sizes_witness :
    (IsDepthStencilFormat (sampleDesc sampleColorFormat).format = false ∧
      IsCompressedFormat (sampleDesc sampleColorFormat).format = false ∧
      (sampleState true).g_imageInitialization.enabled = true) ∧
    callsMade (sampleState true)
      (GLTexImageCubeArray sampleExternals (sampleDesc sampleColorFormat) none
        (sampleState true))
      = [GLCall.glTexImage3D GLenum.GL_TEXTURE_CUBE_MAP_ARRAY 0 (GLenum.value 10) 4 4 12 0
          GLenum.GL_RGBA GLenum.GL_FLOAT (DataPtr.rgbaf (List.replicate 192 sampleRed))] ∧
    (callsMade (sampleState true)
      (GLTexImageCube sampleExternals (sampleDesc sampleColorFormat) none
        (sampleState true))).map GLCall.data?
      = List.replicate 6 (some (DataPtr.rgbaf (List.replicate 16 sampleRed))) :=
  ⟨by decide,
    (default_color_fill_sizes sampleExternals (sampleDesc sampleColorFormat)
      (sampleState true) (by decide) (by decide) (by decide)).2.2.2.2.2.1 (by decide),
    by
      rw [(default_color_fill_sizes sampleExternals (sampleDesc sampleColorFormat)
        (sampleState true) (by decide) (by decide) (by decide)).2.2.2.2.2.2 (by decide)]
      rfl⟩

/-! ## The error condition, and the policy on the upload path -/

/-- C21 fails here: `GLTexImage2D` raises on a plain-color descriptor of 65536 by
32768 pixels with the policy enabled and no source image. The 32-bit pixel count
`2^31` is negative as an `int`, and the constructor of the fill buffer throws
`std::length_error`. -/
theorem tex2D_plain_color_raises :
    IsDepthStencilFormat (overflowDesc sampleColorFormat).format = false ∧
    (GLTexImage2D sampleExternals (overflowDesc sampleColorFormat) none
      (sampleState true)).raised = true ∧
    (GLTexImage2D sampleExternals (overflowDesc sampleColorFormat) none
      (sampleState true)).error = some Exception.length_error := by
  decide

/-- C21 (as amended): an entry point raises the error of `ErrIllegalUseOfDepthFormat`
exactly when no source image is supplied, the format is depth-stencil and the entry
point is one of `GLTexImage1D`, `GLTexImage3D`, `GLTexImageCube`, `GLTexImage1DArray`,
`GLTexImageCubeArray`; `GLTexImage2D` and `GLTexImage2DArray` never raise it. An
entry point raises `std::length_error` exactly when no source image is supplied and
it generates a fill buffer (policy enabled, format not compressed, and format not
depth-stencil unless the entry point is `GLTexImage2D` or `GLTexImage2DArray`) whose
32-bit element count is at least `2^31`. It raises nothing else, and nothing at all
when a source image is supplied. -/
theorem raises_iff (X : Externals) (e : EntryPoint) (desc : TextureDescriptor)
    (imageDesc : Option ImageDescriptor) (s : GLState) :
    ((e.invoke X desc imageDesc s).error = some (Exception.runtime_error illegalDepthText) ↔
      (imageDesc = none ∧ IsDepthStencilFormat desc.format = true ∧
        (e = EntryPoint.tex1D ∨ e = EntryPoint.tex3D ∨ e = EntryPoint.texCube ∨
          e = EntryPoint.tex1DArray ∨ e = EntryPoint.texCubeArray))) ∧
    ((e.invoke X desc imageDesc s).error = some Exception.length_error ↔
      (imageDesc = none ∧ s.g_imageInitialization.enabled = true ∧
        IsCompressedFormat desc.format = false ∧
        (IsDepthStencilFormat desc.format = true →
          e = EntryPoint.tex2D ∨ e = EntryPoint.tex2DArray) ∧
        2 ^ 31 ≤ e.fillCount desc % 2 ^ 32)) ∧
    ((e.invoke X desc imageDesc s).raised = true ↔
      ((e.invoke X desc imageDesc s).error
          = some (Exception.runtime_error illegalDepthText) ∨
        (e.invoke X desc imageDesc s).error = some Exception.length_error)) ∧
    (∀ what : String,
      (GLTexImage2D X desc imageDesc s).error ≠ some (Exception.runtime_error what)) ∧
    (∀ what : String,
      (GLTexImage2DArray X desc imageDesc s).error
        ≠ some (Exception.runtime_error what)) ∧
    (∀ img : ImageDescriptor, (e.invoke X desc (some img) s).raised = false) := by
  have hsome : ∀ (e' : EntryPoint) (img : ImageDescriptor),
      (e'.invoke X desc (some img) s).raised = false := by
    intro e' img
    cases hr : (e'.invoke X desc (some img) s).raised
    · rfl
    · exact absurd (invoke_some_error X e' desc img s) ((raised_iff_error _).1 hr)
  have h2D : ∀ (e' : EntryPoint), e' = EntryPoint.tex2D ∨ e' = EntryPoint.tex2DArray →
      ∀ what : String,
        (e'.invoke X desc imageDesc s).error ≠ some (Exception.runtime_error what) := by
    intro e' he' what
    cases imageDesc with
    | some img => rw [invoke_some_error]; simp
    | none =>
      rw [invoke_none_error]
      rcases he' with rfl | rfl <;> simp
  refine ⟨?_, ?_, ?_, h2D EntryPoint.tex2D (Or.inl rfl), h2D EntryPoint.tex2DArray (Or.inr rfl),
    hsome e⟩
  · cases imageDesc with
    | some img => rw [invoke_some_error]; simp
    | none =>
      rw [invoke_none_error]
      cases hds : IsDepthStencilFormat desc.format <;>
        cases e <;> simp
  · cases imageDesc with
    | some img => rw [invoke_some_error]; simp
    | none =>
      rw [invoke_none_error]
      cases hds : IsDepthStencilFormat desc.format <;>
        cases hc : IsCompressedFormat desc.format <;>
        cases hen : s.g_imageInitialization.enabled <;>
        cases e <;> simp
  · rw [raised_iff_error]
    cases imageDesc with
    | some img => rw [invoke_some_error]; simp
    | none =>
      rw [invoke_none_error]
      split_ifs <;> simp

/-- Instance of C21, on `GLTexImage1DArray` with the sample depth-stencil descriptor
and no source image: the condition holds, and the call raises the error of
`ErrIllegalUseOfDepthFormat`. -/
theorem raises_iff_witness :
    IsDepthStencilFormat (sampleDesc sampleDepthFormat).format = true ∧
    (EntryPoint.tex1DArray.invoke sampleExternals (sampleDesc sampleDepthFormat) none
      (sampleState true)).error = some (Exception.runtime_error illegalDepthText) :=
  ⟨by decide,
    (raises_iff sampleExternals EntryPoint.tex1DArray (sampleDesc sampleDepthFormat) none
      (sampleState true)).1.mpr ⟨rfl, by decide, by decide⟩⟩

/-- C22: with a source image, an entry point does the same from any two states,
whatever their policies: it returns, and makes the same calls with the same
arguments. The enabled flag, the clear color and the clear depth play no part. -/
theorem source_path_ignores_policy (X : Externals) (e : EntryPoint)
    (desc : TextureDescriptor) (img : ImageDescriptor) (s s' : GLState) :
    (e.invoke X desc (some img) s).error = none ∧
    (e.invoke X desc (some img) s').error = none ∧
    callsMade s (e.invoke X desc (some img) s)
      = callsMade s' (e.invoke X desc (some img) s') ∧
    (∀ p : ImageInitialization,
      callsMade (GLTexImageInitialization p s)
          (e.invoke X desc (some img) (GLTexImageInitialization p s))
        = callsMade s (e.invoke X desc (some img) s)) := by
  have key : ∀ t t' : GLState,
      callsMade t (e.invoke X desc (some img) t)
        = callsMade t' (e.invoke X desc (some img) t') := by
    intro t t'
    cases hc : IsCompressedFormat desc.format <;>
      cases e <;>
      simp [EntryPoint.invoke, GLTexImage1D, GLTexImage2D, GLTexImage3D, GLTexImageCube,
        GLTexImage1DArray, GLTexImage2DArray, GLTexImageCubeArray,
        Static.GLTexImage1D, Static.GLTexImage2D, Static.GLTexImage3D,
        Static.GLTexImageCube, Static.GLTexImage1DArray, Static.GLTexImage2DArray,
        Static.GLTexImageCubeArray, GLTexImage1DBase, GLTexImage2DBase, GLTexImage3DBase,
        hc, GLState.call, callsMade, Outcome.state, cubeFaces]
  have herr : ∀ t : GLState, (e.invoke X desc (some img) t).error = none := by
    intro t
    cases e <;>
      simp [EntryPoint.invoke, GLTexImage1D, GLTexImage2D, GLTexImage3D, GLTexImageCube,
        GLTexImage1DArray, GLTexImage2DArray, GLTexImageCubeArray, Outcome.error]
  exact ⟨herr s, herr s', key s s', fun p => key _ s⟩

/-! ## 32-bit arithmetic: face offsets of a compressed cube, fill lengths -/

/-- C23: `GLTexImageCube` with a source image and a compressed format advances the
data pointer by `dataSize mod 2^32` per face: face `i` gets the start of the buffer
plus `i * (dataSize mod 2^32)`. So for `dataSize < 2^32` every face from the second
on gets a pointer at or beyond the end of the `dataSize` bytes of the buffer, while
the single-face helper is still given `dataSize` as the byte length of the face
(passed to OpenGL as `GLsizei`). -/
theorem texCube_compressed_face_offsets (X : Externals) (desc : TextureDescriptor)
    (img : ImageDescriptor) (s : GLState)
    (hcomp : IsCompressedFormat desc.format = true) :
    callsMade s (GLTexImageCube X desc (some img) s)
      = [(0, AxisDirection.XPos), (1, AxisDirection.XNeg), (2, AxisDirection.YPos),
          (3, AxisDirection.YNeg), (4, AxisDirection.ZPos), (5, AxisDirection.ZNeg)].map
        (fun p => GLCall.glCompressedTexImage2D (X.MapAxisDirection p.2) 0
          (X.MapTextureFormat desc.format)
          (toInt32 desc.textureCube.width) (toInt32 desc.textureCube.height) 0
          (toInt32 img.dataSize)
          (DataPtr.addr (img.data + p.1 * (img.dataSize % 2 ^ 32)))) ∧
    GLTexImageCube X desc (some img) s
      = Outcome.returned
        ([(0, AxisDirection.XPos), (1, AxisDirection.XNeg), (2, AxisDirection.YPos),
          (3, AxisDirection.YNeg), (4, AxisDirection.ZPos), (5, AxisDirection.ZNeg)].foldl
          (fun st p => Static.GLTexImageCube X desc.format
            desc.textureCube.width desc.textureCube.height p.2
            (X.MapImageFormat img.format) (X.MapDataType img.dataType)
            (DataPtr.addr (img.data + p.1 * (img.dataSize % 2 ^ 32))) img.dataSize st) s) ∧
    (img.dataSize < 2 ^ 32 →
      (callsMade s (GLTexImageCube X desc (some img) s)).map GLCall.data?
        = [some (DataPtr.addr img.data),
            some (DataPtr.addr (img.data + 1 * img.dataSize)),
            some (DataPtr.addr (img.data + 2 * img.dataSize)),
            some (DataPtr.addr (img.data + 3 * img.dataSize)),
            some (DataPtr.addr (img.data + 4 * img.dataSize)),
            some (DataPtr.addr (img.data + 5 * img.dataSize))] ∧
      ∀ c ∈ (callsMade s (GLTexImageCube X desc (some img) s)).tail,
        ∃ a, c.data? = some (DataPtr.addr a) ∧ img.data + img.dataSize ≤ a ∧
          c.imageSize? = some (toInt32 img.dataSize)) ∧
    (img.dataSize < 2 ^ 31 → toInt32 img.dataSize = (img.dataSize : Int)) := by
  have hu : u32 img.dataSize = img.dataSize % 2 ^ 32 := rfl
  have hcalls : callsMade s (GLTexImageCube X desc (some img) s)
      = [(0, AxisDirection.XPos), (1, AxisDirection.XNeg), (2, AxisDirection.YPos),
          (3, AxisDirection.YNeg), (4, AxisDirection.ZPos), (5, AxisDirection.ZNeg)].map
        (fun p => GLCall.glCompressedTexImage2D (X.MapAxisDirection p.2) 0
          (X.MapTextureFormat desc.format)
          (toInt32 desc.textureCube.width) (toInt32 desc.textureCube.height) 0
          (toInt32 img.dataSize)
          (DataPtr.addr (img.data + p.1 * (img.dataSize % 2 ^ 32)))) := by
    generalize hk : img.dataSize % 2 ^ 32 = k
    simp only [GLTexImageCube, hcomp, hu, hk, cubeFaces, List.foldl, Static.GLTexImageCube,
      GLTexImage2DBase, GLState.call, callsMade, Outcome.state, List.map, if_true]
    simp
    omega
  refine ⟨hcalls, ?_, ?_, fun h => toInt32_of_lt h⟩
  · generalize hk : img.dataSize % 2 ^ 32 = k
    simp only [GLTexImageCube, hcomp, hu, hk, cubeFaces, List.foldl, if_true]
    simp [Static.GLTexImageCube, GLTexImage2DBase, hcomp, GLState.call]
    omega
  · intro hlt
    have hm : img.dataSize % 2 ^ 32 = img.dataSize := Nat.mod_eq_of_lt hlt
    rw [hcalls, hm]
    refine ⟨by simp [GLCall.data?], ?_⟩
    intro c hc
    simp only [List.map, List.tail, List.mem_cons, List.mem_singleton, List.mem_nil_iff,
      or_false] at hc
    rcases hc with rfl | rfl | rfl | rfl | rfl <;>
      exact ⟨_, rfl, by omega, rfl⟩

/-- Instance of C23, on the sample compressed descriptor and the sample image of
384 bytes at address 4096: the buffer ends at 4480, where the second face starts. -/
theorem texCube_compressed_face_offsets_witness :
    IsCompressedFormat (sampleDesc sampleCompressedFormat).format = true ∧
    (sampleImage.data = 4096 ∧ sampleImage.dataSize = 384) ∧
    (callsMade (sampleState true)
      (GLTexImageCube sampleExternals (sampleDesc sampleCompressedFormat)
        (some sampleImage) (sampleState true))).map GLCall.data?
      = [some (DataPtr.addr 4096), some (DataPtr.addr 4480), some (DataPtr.addr 4864),
          some (DataPtr.addr 5248), some (DataPtr.addr 5632), some (DataPtr.addr 6016)] :=
  ⟨by decide, by decide,
    ((texCube_compressed_face_offsets sampleExternals (sampleDesc sampleCompressedFormat)
      sampleImage (sampleState true) (by decide)).2.2.1 (by decide)).1⟩

/-- C24 fails here: on a plain-color descriptor of 65536 by 32768 pixels, with the
policy enabled and no source image, the requested fill length is the sign-extended
value `2^64 - 2^31`; the constructor of the fill buffer throws `std::length_error`
and `GLTexImage2D` makes no backend call, so no call receives the width and height. -/
theorem tex2D_fill_overflow_makes_no_call :
    toSizeT (toInt32 (u32 ((overflowDesc sampleColorFormat).texture2D.width *
      (overflowDesc sampleColorFormat).texture2D.height))) = 2 ^ 64 - 2 ^ 31 ∧
    (GLTexImage2D sampleExternals (overflowDesc sampleColorFormat) none
      (sampleState true)).error = some Exception.length_error ∧
    callsMade (sampleState true)
      (GLTexImage2D sampleExternals (overflowDesc sampleColorFormat) none
        (sampleState true)) = [] := by
  decide

/-- C24 (as amended): the number of elements `GLTexImage2D` requests for its fill
buffer is the 32-bit product `width * height mod 2^32` read as a signed `int` and
converted to `std::size_t`: the residue when it is below `2^31`, and `2^64 - 2^32`
plus the residue otherwise. It equals `width * height` exactly when
`width * height < 2^31`. When the residue is below `2^31` the entry point makes one
call, carrying a buffer of that many elements and the width and height of the
descriptor (as `GLsizei`, which keeps values below `2^31`). When the residue is
`2^31` or more the constructor of the buffer throws `std::length_error` and no
backend call is made. -/
theorem tex2D_fill_length_32bit (X : Externals) (desc : TextureDescriptor) (s : GLState)
    (hen : s.g_imageInitialization.enabled = true)
    (hw : desc.texture2D.width < 2 ^ 32) (hh : desc.texture2D.height < 2 ^ 32) :
    ∃ n : Nat,
      n = toSizeT (toInt32 (u32 (desc.texture2D.width * desc.texture2D.height))) ∧
      n = (if desc.texture2D.width * desc.texture2D.height % 2 ^ 32 < 2 ^ 31
            then desc.texture2D.width * desc.texture2D.height % 2 ^ 32
            else 2 ^ 64 - 2 ^ 32 + desc.texture2D.width * desc.texture2D.height % 2 ^ 32) ∧
      (n = desc.texture2D.width * desc.texture2D.height ↔
        desc.texture2D.width * desc.texture2D.height < 2 ^ 31) ∧
      (IsDepthStencilFormat desc.format = false → IsCompressedFormat desc.format = false →
        GLTexImage2D X desc none s
          = withImage (stdVector 16 n s.g_imageInitialization.clearValue.color) s
              fun image => Static.GLTexImage2D X desc.format desc.texture2D.width desc.texture2D.height
                GLenum.GL_RGBA GLenum.GL_FLOAT (DataPtr.rgbaf image) 0 s) ∧
      (IsDepthStencilFormat desc.format = true →
        GLTexImage2D X desc none s
          = withImage (stdVector 4 n s.g_imageInitialization.clearValue.depth) s
              fun image => Static.GLTexImage2D X desc.format desc.texture2D.width desc.texture2D.height
                GLenum.GL_DEPTH_COMPONENT GLenum.GL_FLOAT (DataPtr.rf image) 0 s) ∧
      (desc.texture2D.width * desc.texture2D.height % 2 ^ 32 < 2 ^ 31 →
        (IsDepthStencilFormat desc.format = false →
          IsCompressedFormat desc.format = false →
          (GLTexImage2D X desc none s).raised = false ∧
          callsMade s (GLTexImage2D X desc none s)
            = [GLCall.glTexImage2D GLenum.GL_TEXTURE_2D 0 (X.MapTextureFormat desc.format)
                (toInt32 desc.texture2D.width) (toInt32 desc.texture2D.height) 0
                GLenum.GL_RGBA GLenum.GL_FLOAT
                (DataPtr.rgbaf
                  (List.replicate n s.g_imageInitialization.clearValue.color))]) ∧
        (IsDepthStencilFormat desc.format = true →
          (GLTexImage2D X desc none s).raised = false ∧
          callsMade s (GLTexImage2D X desc none s)
            = [GLCall.glTexImage2D GLenum.GL_TEXTURE_2D 0 (X.MapTextureFormat desc.format)
                (toInt32 desc.texture2D.width) (toInt32 desc.texture2D.height) 0
                GLenum.GL_DEPTH_COMPONENT GLenum.GL_FLOAT
                (DataPtr.rf
                  (List.replicate n s.g_imageInitialization.clearValue.depth))])) ∧
      (2 ^ 31 ≤ desc.texture2D.width * desc.texture2D.height % 2 ^ 32 →
        (IsDepthStencilFormat desc.format = false →
          IsCompressedFormat desc.format = false →
          (GLTexImage2D X desc none s).error = some Exception.length_error ∧
          callsMade s (GLTexImage2D X desc none s) = []) ∧
        (IsDepthStencilFormat desc.format = true →
          (GLTexImage2D X desc none s).error = some Exception.length_error ∧
          callsMade s (GLTexImage2D X desc none s) = [])) ∧
      (desc.texture2D.width < 2 ^ 31 → desc.texture2D.height < 2 ^ 31 →
        toInt32 desc.texture2D.width = (desc.texture2D.width : Int) ∧
        toInt32 desc.texture2D.height = (desc.texture2D.height : Int)) := by
  have hn : toSizeT (toInt32 (u32 (desc.texture2D.width * desc.texture2D.height)))
      = (if desc.texture2D.width * desc.texture2D.height % 2 ^ 32 < 2 ^ 31
          then desc.texture2D.width * desc.texture2D.height % 2 ^ 32
          else 2 ^ 64 - 2 ^ 32 + desc.texture2D.width * desc.texture2D.height % 2 ^ 32) := by
    rw [toSizeT_toInt32, u32_mod]
  have hm : desc.texture2D.width * desc.texture2D.height ≤ (2 ^ 32 - 1) * (2 ^ 32 - 1) :=
    Nat.mul_le_mul (by omega) (by omega)
  refine ⟨_, rfl, hn, ?_, ?_, ?_, ?_, ?_,
    fun h1 h2 => ⟨toInt32_of_lt h1, toInt32_of_lt h2⟩⟩
  · rw [hn]
    generalize desc.texture2D.width * desc.texture2D.height = m at hm
    split <;> omega
  · intro hnd hnc
    simp [GLTexImage2D, hnd, hnc, hen, GenImageDataRGBAf]
  · intro hds
    simp [GLTexImage2D, hds, hen, GenImageDataRf]
  · intro hlt
    rw [hn, if_pos hlt]
    have hc := GenImageDataRGBAf_of_lt (n := u32 (desc.texture2D.width * desc.texture2D.height))
      (u32_mod _) hlt s.g_imageInitialization.clearValue.color
    have hd := GenImageDataRf_of_lt (n := u32 (desc.texture2D.width * desc.texture2D.height))
      (u32_mod _) hlt s.g_imageInitialization.clearValue.depth
    refine ⟨fun hnd hnc => ?_, fun hds => ?_⟩
    · simp [GLTexImage2D, hnd, hnc, hen, hc, withImage_ok, raised_returned,
        Static.GLTexImage2D, GLTexImage2DBase, callsMade_call]
    · have hnc := not_compressed_of_depthStencil hds
      simp [GLTexImage2D, hds, hnc, hen, hd, withImage_ok, raised_returned,
        Static.GLTexImage2D, GLTexImage2DBase, callsMade_call]
  · intro hge
    have hc := GenImageDataRGBAf_of_ge (n := u32 (desc.texture2D.width * desc.texture2D.height))
      (by rw [u32_mod]; exact hge) s.g_imageInitialization.clearValue.color
    have hd := GenImageDataRf_of_ge (n := u32 (desc.texture2D.width * desc.texture2D.height))
      (by rw [u32_mod]; exact hge) s.g_imageInitialization.clearValue.depth
    refine ⟨fun hnd hnc => ?_, fun hds => ?_⟩
    · simp [GLTexImage2D, hnd, hnc, hen, hc, withImage_error, Outcome.error,
        callsMade_threw_self]
    · simp [GLTexImage2D, hds, hen, hd, withImage_error, Outcome.error,
        callsMade_threw_self]

/-- Instance of C24, on a plain-color descriptor of 65537 by 65536 pixels: the
pixel count `2^32 + 65536` wraps to 65536, so the call carries a buffer of 65536
elements together with width 65537 and height 65536. -/
theorem tex2D_fill_length_32bit_witness :
    ((sampleState true).g_imageInitialization.enabled = true ∧
      (wideDesc sampleColorFormat).texture2D.width = 65537 ∧
      (wideDesc sampleColorFormat).texture2D.height = 65536) ∧
    ∃ n : Nat, n = 65536 ∧
      callsMade (sampleState true)
        (GLTexImage2D sampleExternals (wideDesc sampleColorFormat) none (sampleState true))
        = [GLCall.glTexImage2D GLenum.GL_TEXTURE_2D 0 (GLenum.value 10) 65537 65536 0
            GLenum.GL_RGBA GLenum.GL_FLOAT (DataPtr.rgbaf (List.replicate n sampleRed))] :=
  ⟨by decide,
    match tex2D_fill_length_32bit sampleExternals (wideDesc sampleColorFormat)
      (sampleState true) (by decide) (by decide) (by decide) with
    | ⟨n, _, hn, _, _, _, hlt, _⟩ =>
      ⟨n, hn.trans (by decide), ((hlt (by decide)).1 (by decide) (by decide)).2⟩⟩

/-! ## The base helpers -/

/-- C25: each base helper issues exactly one call and leaves the policy alone. The
call is the compressed primitive exactly when `IsCompressedFormat internalFormat`
holds; it then carries `dataSize` (as `GLsizei`) and `data` and no pixel format or
type. Otherwise it is the uncompressed primitive, carrying `format`, `type` and `data`
and no byte length. In both cases it carries the target, the mapped internal format
and the geometry (as `GLsizei`) it was given. -/
theorem base_helpers_select_primitive (X : Externals) (target : GLenum)
    (internalFormat : TextureFormat) (width height depth : Nat) (format type : GLenum)
    (data : DataPtr) (dataSize : Nat) (s : GLState) :
    (∃ c, GLTexImage1DBase X target internalFormat width format type data dataSize s
          = ⟨s.g_imageInitialization, s.calls ++ [c]⟩ ∧
        c = (if IsCompressedFormat internalFormat then
              GLCall.glCompressedTexImage1D target 0 (X.MapTextureFormat internalFormat)
                (toInt32 width) 0 (toInt32 dataSize) data
            else
              GLCall.glTexImage1D target 0 (X.MapTextureFormat internalFormat)
                (toInt32 width) 0 format type data) ∧
        c.isCompressed = IsCompressedFormat internalFormat ∧
        c.target = target ∧ c.internalformat = X.MapTextureFormat internalFormat ∧
        c.width = toInt32 width ∧ c.height? = none ∧ c.depth? = none ∧
        c.data? = some data ∧
        c.imageSize?
          = (if IsCompressedFormat internalFormat then some (toInt32 dataSize) else none) ∧
        c.formatType?
          = (if IsCompressedFormat internalFormat then none else some (format, type))) ∧
    (∃ c, GLTexImage2DBase X target internalFormat width height format type data dataSize s
          = ⟨s.g_imageInitialization, s.calls ++ [c]⟩ ∧
        c = (if IsCompressedFormat internalFormat then
              GLCall.glCompressedTexImage2D target 0 (X.MapTextureFormat internalFormat)
                (toInt32 width) (toInt32 height) 0 (toInt32 dataSize) data
            else
              GLCall.glTexImage2D target 0 (X.MapTextureFormat internalFormat)
                (toInt32 width) (toInt32 height) 0 format type data) ∧
        c.isCompressed = IsCompressedFormat internalFormat ∧
        c.target = target ∧ c.internalformat = X.MapTextureFormat internalFormat ∧
        c.width = toInt32 width ∧ c.height? = some (toInt32 height) ∧ c.depth? = none ∧
        c.data? = some data ∧
        c.imageSize?
          = (if IsCompressedFormat internalFormat then some (toInt32 dataSize) else none) ∧
        c.formatType?
          = (if IsCompressedFormat internalFormat then none else some (format, type))) ∧
    (∃ c, GLTexImage3DBase X target internalFormat width height depth format type data
            dataSize s
          = ⟨s.g_imageInitialization, s.calls ++ [c]⟩ ∧
        c = (if IsCompressedFormat internalFormat then
              GLCall.glCompressedTexImage3D target 0 (X.MapTextureFormat internalFormat)
                (toInt32 width) (toInt32 height) (toInt32 depth) 0 (toInt32 dataSize) data
            else
              GLCall.glTexImage3D target 0 (X.MapTextureFormat internalFormat)
                (toInt32 width) (toInt32 height) (toInt32 depth) 0 format type data) ∧
        c.isCompressed = IsCompressedFormat internalFormat ∧
        c.target = target ∧ c.internalformat = X.MapTextureFormat internalFormat ∧
        c.width = toInt32 width ∧ c.height? = some (toInt32 height) ∧
        c.depth? = some (toInt32 depth) ∧
        c.data? = some data ∧
        c.imageSize?
          = (if IsCompressedFormat internalFormat then some (toInt32 dataSize) else none) ∧
        c.formatType?
          = (if IsCompressedFormat internalFormat then none else some (format, type))) := by
  refine ⟨⟨_, ?_, rfl, ?_⟩, ⟨_, ?_, rfl, ?_⟩, ⟨_, ?_, rfl, ?_⟩⟩ <;>
    cases hc : IsCompressedFormat internalFormat <;>
    simp [GLTexImage1DBase, GLTexImage2DBase, GLTexImage3DBase, hc, GLState.call,
      GLCall.isCompressed, GLCall.target, GLCall.internalformat, GLCall.width,
      GLCall.height?, GLCall.depth?, GLCall.data?, GLCall.imageSize?, GLCall.formatType?]

end LLGL
